import Mathlib

/-!
Verification of the telegraws metrics collection and report assembly pipeline.

This file shallowly embeds the Go source of the repository:
  config (GetTimeParams), main.go (the collection coordinator in logic),
  services/ec2.go, services/dynamodb.go, services/cloudfront.go (CloudFrontMetrics,
  getALBARNFromWAF, WAFMetrics), services/cwlogs.go, the S3 collector, and
  utils/message.go (escapeMarkdown, BuildMessage).

Modelling conventions:
  Go float64 values are embedded as rational numbers; time.Time instants are
  embedded as integer unix seconds, with the local hour and the formatted
  display text of an instant supplied as separate data where the code uses them;
  an AWS backend call is embedded as a function from the request structure to
  an Except result, so a collector is a pure function of the backend oracle;
  a Go map with string keys is embedded as an association list in insertion
  order (mapInsert overwrites in place, appends fresh keys at the end), and a
  Go map read defaults to the zero value, embedded by lookupF; a Go map range
  whose order the language leaves unspecified is embedded by an explicit
  iteration-order parameter.
-/

set_option maxHeartbeats 4000000
set_option maxRecDepth 100000

namespace Telegraws

/-- One CloudWatch datapoint: a timestamp with its per-statistic values. -/
structure Datapoint where
  timestamp : Int
  average : Rat
  maximum : Rat
  sum : Rat
deriving Repr, DecidableEq

/-- Result of one GetMetricStatistics call: an SDK error or the datapoint list. -/
abbrev QueryResult := Except Unit (List Datapoint)

/-- The request structure built for a GetMetricStatistics call. -/
structure GMSInput where
  ns : String
  metricName : String
  dimensions : List (String × String)
  startTime : Int
  endTime : Int
  period : Int
  statistic : String
  unit : Option String
deriving Repr, DecidableEq

/-- A CloudWatch backend, embedded as an oracle over request structures. -/
abbrev CWBackend := GMSInput → QueryResult

/-- A collector result map, in Go map insertion order. -/
abbrev MetricSet := List (String × Rat)

/-- Go map insert: overwrite an existing key in place, else append at the end. -/
def mapInsert (m : List (String × Rat)) (k : String) (v : Rat) : List (String × Rat) :=
  if m.any (fun p => p.1 == k) then
    m.map (fun p => if p.1 == k then (k, v) else p)
  else
    m ++ [(k, v)]

/-- Go map read with the float64 zero value for a missing key. -/
def lookupF (m : MetricSet) (k : String) : Rat :=
  (m.lookup k).getD 0

/-- Monitoring part of the configuration (config.go). -/
structure MonitoringConfig where
  timezone : String
  defaultPeriod : Nat
  dailyReportHour : Nat
deriving Repr, DecidableEq

/-- TimeParams as produced by GetTimeParams; the Location field is carried by
the validated timezone name. -/
structure TimeParams where
  startTime : Int
  endTime : Int
  isDailyReport : Bool
deriving Repr, DecidableEq

/-- Embedding of (c Config) GetTimeParams (config.go).  time.LoadLocation is
embedded as a validity oracle on the timezone name; time.Now().In(loc) is the
pair of the instant nowSec and its local hour nowHour. -/
def getTimeParams (tzValid : String → Bool) (nowSec : Int) (nowHour : Nat)
    (m : MonitoringConfig) : Except String (Option TimeParams) :=
  if tzValid m.timezone = false then Except.error "invalid timezone"
  else
    let isDaily : Bool := nowHour == m.dailyReportHour
    if m.defaultPeriod == 0 && !isDaily then Except.ok none
    else if isDaily then
      Except.ok (some { startTime := nowSec - 24 * 3600, endTime := nowSec,
                        isDailyReport := true })
    else
      Except.ok (some { startTime := nowSec - (m.defaultPeriod : Int) * 3600,
                        endTime := nowSec, isDailyReport := false })


/-! ## Per-service collectors -/

/-- Query granularity shared by the collectors: 1 hour, or 1 day when the
window spans at least 24 hours (services/ec2.go and the other collectors). -/
def periodFor (st en : Int) : Int :=
  if 24 * 3600 ≤ en - st then 86400 else 3600

/-- One row of a collector's fixed metric table (Name, Statistic, Unit). The
unit label column is carried by the Go tables but never read by the loops. -/
structure MetricSpec where
  name : String
  statistic : String
  unitLabel : String
deriving Repr, DecidableEq

/-- Fixed EC2 metric table (services/ec2.go). -/
def ec2MetricsTable : List MetricSpec :=
  [ ⟨ "CPUUtilization", "Average", "%"⟩,
    ⟨ "CPUUtilization", "Maximum", "%"⟩,
    ⟨ "StatusCheckFailed", "Sum", "count"⟩,
    ⟨ "NetworkIn", "Sum", "MB"⟩,
    ⟨ "NetworkOut", "Sum", "MB"⟩ ]

/-- The GetMetricStatistics request built by EC2Metrics for one table row. -/
def ec2InputFor (instanceID : String) (st en p : Int) (name stat : String) : GMSInput :=
  { ns := "AWS/EC2", metricName := name,
    dimensions := [( "InstanceId", instanceID)],
    startTime := st, endTime := en, period := p, statistic := stat,
    unit := if name == "NetworkIn" || name == "NetworkOut" then some "Bytes" else none }

/-- Value recorded by EC2Metrics from one response: 0.0 for an empty datapoint
list, else the statistic of Datapoints[0] (the first element of the response,
in whatever order the backend returned it), with network byte sums converted
to MB. -/
def ec2Value (spec : MetricSpec) : List Datapoint → Rat
  | [] => 0
  | dp :: _ =>
    if spec.statistic == "Average" then dp.average
    else if spec.statistic == "Maximum" then dp.maximum
    else if spec.statistic == "Sum" then
      (if spec.name == "NetworkIn" || spec.name == "NetworkOut" then
        dp.sum / (1024 * 1024)
      else dp.sum)
    else 0

/-- The map key used by EC2Metrics for one table row. -/
def ec2Key (spec : MetricSpec) : String :=
  if spec.name == "CPUUtilization" then spec.name ++ "_" ++ spec.statistic
  else spec.name

/-- The query loop of EC2Metrics: the first query error aborts the collector;
otherwise each row records its value under its key. -/
def ec2Loop (cw : CWBackend) (instanceID : String) (st en p : Int) :
    List MetricSpec → MetricSet → Except String MetricSet
  | [], acc => Except.ok acc
  | spec :: rest, acc =>
    match cw (ec2InputFor instanceID st en p spec.name spec.statistic) with
    | Except.error _ => Except.error ( "error getting " ++ spec.name)
    | Except.ok dps =>
      ec2Loop cw instanceID st en p rest (mapInsert acc (ec2Key spec) (ec2Value spec dps))

/-- Embedding of services.EC2Metrics. -/
def EC2Metrics (cw : CWBackend) (instanceID : String) (st en : Int) :
    Except String MetricSet :=
  ec2Loop cw instanceID st en (periodFor st en) ec2MetricsTable []

/-- The latest-datapoint selection used by the DynamoDB and S3 collectors:
Go starts from Datapoints[0] and replaces it whenever a strictly later
timestamp is found while ranging over the whole slice. -/
def latestDp (d : Datapoint) (l : List Datapoint) : Datapoint :=
  l.foldl (fun acc dp => if acc.timestamp < dp.timestamp then dp else acc) d

/-- DescribeTable output for one table (nil pointers embedded as none). -/
structure TableDesc where
  billingMode : Option String
  itemCount : Option Int
deriving Repr, DecidableEq

/-- Fixed DynamoDB metric table always queried (services/dynamodb.go). -/
def dynamoBaseTable : List (String × String) :=
  [ ( "ReadThrottleEvents", "Sum"),
    ( "WriteThrottleEvents", "Sum"),
    ( "SystemErrors", "Sum"),
    ( "UserErrors", "Sum"),
    ( "ConsumedReadCapacityUnits", "Sum"),
    ( "ConsumedWriteCapacityUnits", "Sum") ]

/-- The two rows appended only under provisioned billing. -/
def dynamoProvisionedExtra : List (String × String) :=
  [ ( "RequestCount", "Sum"), ( "SuccessfulRequestLatency", "Average") ]

/-- The GetMetricStatistics request built by DynamoDBMetrics for one row. -/
def dynamoInputFor (tableName : String) (st en p : Int) (name stat : String) : GMSInput :=
  { ns := "AWS/DynamoDB", metricName := name,
    dimensions := [( "TableName", tableName)],
    startTime := st, endTime := en, period := p, statistic := stat, unit := none }

/-- Value recorded by DynamoDBMetrics from one response: 0.0 for an empty
datapoint list, else the statistic of the datapoint latest by timestamp.  The
Go switch handles Average and Sum; any other statistic would leave the
float64 zero value. -/
def dynamoValue (stat : String) : List Datapoint → Rat
  | [] => 0
  | d :: t =>
    let latest := latestDp d (d :: t)
    if stat == "Average" then latest.average
    else if stat == "Sum" then latest.sum
    else 0

/-- The query loop of DynamoDBMetrics: the first query error aborts the
collector; otherwise each row records its value under the metric name. -/
def dynamoLoop (cw : CWBackend) (tableName : String) (st en p : Int) :
    List (String × String) → MetricSet → Except String MetricSet
  | [], acc => Except.ok acc
  | (name, stat) :: rest, acc =>
    match cw (dynamoInputFor tableName st en p name stat) with
    | Except.error _ => Except.error ( "error getting " ++ name)
    | Except.ok dps =>
      dynamoLoop cw tableName st en p rest (mapInsert acc name (dynamoValue stat dps))

/-- Embedding of services.DynamoDBMetrics.  The DescribeTable call is supplied
as a result oracle (none embeds a nil Table pointer). -/
def DynamoDBMetrics (cw : CWBackend) (describe : Except Unit (Option TableDesc))
    (tableName : String) (st en : Int) : Except String MetricSet :=
  match describe with
  | Except.error _ => Except.error "failed to describe table"
  | Except.ok table =>
    let onDemand : Bool :=
      match table with
      | some t => t.billingMode == some "PAY_PER_REQUEST"
      | none => false
    let m0 := mapInsert [] "BillingMode" (if onDemand then 1 else 0)
    let m1 :=
      match table with
      | some t =>
        match t.itemCount with
        | some n => mapInsert m0 "ItemCount" (n : Rat)
        | none => mapInsert m0 "ItemCount" 0
      | none => mapInsert m0 "ItemCount" 0
    let specs := dynamoBaseTable ++ (if onDemand then [] else dynamoProvisionedExtra)
    dynamoLoop cw tableName st en (periodFor st en) specs m1

/-- Fixed CloudFront metric table (services/cloudfront.go). -/
def cloudFrontMetricsTable : List MetricSpec :=
  [ ⟨ "Requests", "Sum", "Count"⟩,
    ⟨ "4xxErrorRate", "Average", "Percent"⟩,
    ⟨ "5xxErrorRate", "Average", "Percent"⟩,
    ⟨ "BytesUploaded", "Sum", "Bytes"⟩,
    ⟨ "BytesDownloaded", "Sum", "Bytes"⟩ ]

/-- The GetMetricStatistics request built by CloudFrontMetrics for one row. -/
def cloudFrontInputFor (distributionID : String) (st en p : Int) (name stat : String) :
    GMSInput :=
  { ns := "AWS/CloudFront", metricName := name,
    dimensions := [( "DistributionId", distributionID), ( "Region", "Global")],
    startTime := st, endTime := en, period := p, statistic := stat, unit := none }

/-- Value recorded by CloudFrontMetrics from one response: 0.0 for an empty
datapoint list; Average rows average all datapoints, Sum rows sum all
datapoints (with byte metrics converted to MB). -/
def cfValue (spec : MetricSpec) : List Datapoint → Rat
  | [] => 0
  | d :: t =>
    if spec.statistic == "Average" then
      ((d :: t).map (fun dp => dp.average)).sum / (((d :: t).length : Nat) : Rat)
    else if spec.statistic == "Sum" then
      (let s := ((d :: t).map (fun dp => dp.sum)).sum
       if spec.name == "BytesDownloaded" || spec.name == "BytesUploaded" then
         s / (1024 * 1024)
       else s)
    else 0

/-- The query loop of CloudFrontMetrics: the first query error aborts the
collector; otherwise each row records its value under the metric name. -/
def cloudFrontLoop (cw : CWBackend) (distributionID : String) (st en p : Int) :
    List MetricSpec → MetricSet → Except String MetricSet
  | [], acc => Except.ok acc
  | spec :: rest, acc =>
    match cw (cloudFrontInputFor distributionID st en p spec.name spec.statistic) with
    | Except.error _ => Except.error ( "error getting " ++ spec.name)
    | Except.ok dps =>
      cloudFrontLoop cw distributionID st en p rest (mapInsert acc spec.name (cfValue spec dps))

/-- Embedding of services.CloudFrontMetrics. -/
def CloudFrontMetrics (cw : CWBackend) (distributionID : String) (st en : Int) :
    Except String MetricSet :=
  cloudFrontLoop cw distributionID st en (periodFor st en) cloudFrontMetricsTable []

/-- The storage types the S3 collector tries for BucketSizeBytes. -/
def s3StorageTypes : List String :=
  [ "StandardStorage", "StandardIAStorage", "ReducedRedundancyStorage",
    "GlacierStorage", "DeepArchiveStorage", "IntelligentTieringFAStorage",
    "IntelligentTieringIAStorage", "IntelligentTieringAAStorage",
    "IntelligentTieringAIAStorage", "IntelligentTieringDAAStorage" ]

/-- The BucketSizeBytes request for one storage type; S3 storage metrics are
daily, and the window start is widened by one day (AddDate(0,0,-1), embedded
as minus 86400 seconds). -/
def s3SizeInputFor (bucket storageType : String) (st en : Int) : GMSInput :=
  { ns := "AWS/S3", metricName := "BucketSizeBytes",
    dimensions := [( "BucketName", bucket), ( "StorageType", storageType)],
    startTime := st - 86400, endTime := en, period := 86400,
    statistic := "Average", unit := none }

/-- The NumberOfObjects request, against the AllStorageTypes dimension. -/
def s3ObjectsInput (bucket : String) (st en : Int) : GMSInput :=
  { ns := "AWS/S3", metricName := "NumberOfObjects",
    dimensions := [( "BucketName", bucket), ( "StorageType", "AllStorageTypes")],
    startTime := st - 86400, endTime := en, period := 86400,
    statistic := "Average", unit := none }

/-- Total BucketSizeBytes: per storage type, a failed or empty query is
skipped (contributes nothing); otherwise the latest datapoint's average is
added.  The nil check on the datapoint's Average field is always true in this
embedding, where a returned statistic value is always populated. -/
def s3TotalSize (cw : CWBackend) (bucket : String) (st en : Int) : Rat :=
  s3StorageTypes.foldl (fun total storageType =>
    match cw (s3SizeInputFor bucket storageType st en) with
    | Except.error _ => total
    | Except.ok [] => total
    | Except.ok (d :: t) => total + (latestDp d (d :: t)).average) 0

/-- Embedding of services.S3Metrics: never returns an error. -/
def S3Metrics (cw : CWBackend) (bucket : String) (st en : Int) :
    Except String MetricSet :=
  let m0 := mapInsert [] "BucketSizeMB" (s3TotalSize cw bucket st en / (1024 * 1024))
  match cw (s3ObjectsInput bucket st en) with
  | Except.ok (d :: t) =>
    Except.ok (mapInsert m0 "NumberOfObjects" (latestDp d (d :: t)).average)
  | _ => Except.ok (mapInsert m0 "NumberOfObjects" 0)

/-- WAF protection scope. -/
inductive WafScope where
  | regional
  | cloudfront
deriving Repr, DecidableEq

/-- The WAF service backend: the GetWebACL call (returning the ACL's ARN) and
the ListResourcesForWebACL call for a given ARN. -/
structure WafBackend where
  getWebACL : Except Unit String
  listResources : String → Except Unit (List String)

/-- Embedding of getALBARNFromWAF (services/cloudfront.go): CloudFront scope
returns the empty string right after a successful GetWebACL; regional scope
requires exactly one associated load balancer. -/
def getALBARNFromWAF (wb : WafBackend) (webACLName webACLId : String)
    (scope : WafScope) : Except String String :=
  match wb.getWebACL with
  | Except.error _ => Except.error "failed to get WAF details"
  | Except.ok arn =>
    if scope = WafScope.cloudfront then Except.ok ""
    else
      match wb.listResources arn with
      | Except.error _ => Except.error "failed to get resources for WAF"
      | Except.ok [] => Except.error "no ALB resources associated with WAF"
      | Except.ok [a] => Except.ok a
      | Except.ok (_ :: _ :: _) =>
        Except.error "multiple ALB resources found, expected only one"

/-- Fixed WAF metric table. -/
def wafMetricsTable : List (String × String) :=
  [ ( "AllowedRequests", "Sum"), ( "BlockedRequests", "Sum") ]

/-- The GetMetricStatistics request built by WAFMetrics for one row, over the
scope-dependent dimension set. -/
def wafInputFor (dims : List (String × String)) (st en p : Int) (name stat : String) :
    GMSInput :=
  { ns := "AWS/WAFV2", metricName := name, dimensions := dims,
    startTime := st, endTime := en, period := p, statistic := stat, unit := none }

/-- Value recorded by WAFMetrics from one successful response: 0.0 for an
empty datapoint list, else Datapoints[0].Sum. -/
def wafValue : List Datapoint → Rat
  | [] => 0
  | d :: _ => d.sum

/-- The query loop of WAFMetrics: a failed query is logged and skipped (the
key stays absent); a successful one records its value under the metric name. -/
def wafLoop (cw : CWBackend) (dims : List (String × String)) (st en p : Int) :
    List (String × String) → MetricSet → MetricSet
  | [], acc => acc
  | (name, stat) :: rest, acc =>
    match cw (wafInputFor dims st en p name stat) with
    | Except.error _ => wafLoop cw dims st en p rest acc
    | Except.ok dps => wafLoop cw dims st en p rest (mapInsert acc name (wafValue dps))

/-- Embedding of services.WAFMetrics: scope defaults to REGIONAL unless the
configured string is CLOUDFRONT; a resolution failure is fatal exactly under
regional scope (CloudFront scope proceeds with the zero-value ARN). -/
def WAFMetrics (wb : WafBackend) (cw : CWBackend) (webACLId webACLName scopeStr : String)
    (st en : Int) : Except String MetricSet :=
  let scope := if scopeStr == "CLOUDFRONT" then WafScope.cloudfront else WafScope.regional
  match getALBARNFromWAF wb webACLName webACLId scope, scope with
  | Except.error e, WafScope.regional =>
    Except.error ( "failed to get ALB ARN from WAF: " ++ e)
  | res, _ =>
    let albARN := match res with | Except.ok a => a | Except.error _ => ""
    let dims := if scope = WafScope.cloudfront then [( "WebACL", webACLName)]
      else [( "Resource", albARN), ( "ResourceType", "ALB")]
    Except.ok (wafLoop cw dims st en (periodFor st en) wafMetricsTable [])

/-- Per-level log counts; the Go map always carries these three keys. -/
structure LogCounts where
  error : Int
  warn : Int
  info : Int
deriving Repr, DecidableEq

/-- The paginated FilterLogEvents count for one severity level: each page
yields its event count or an SDK error; an error breaks out of the pagination
loop, keeping the count accumulated so far (services/cwlogs.go). -/
def countLevel : List (Except Unit Int) → Int → Int
  | [], acc => acc
  | Except.error _ :: _, acc => acc
  | Except.ok n :: rest, acc => countLevel rest (acc + n)

/-- Embedding of services.CWLogs: the page oracle is keyed by severity level
(the level's filter pattern selects on the structured level field); the
collector never returns an error. -/
def CWLogs (pagesFor : String → List (Except Unit Int)) (logGroupName : String) :
    Except String LogCounts :=
  Except.ok
    { error := countLevel (pagesFor "error") 0,
      warn := countLevel (pagesFor "warn") 0,
      info := countLevel (pagesFor "info") 0 }

/-! ## Aggregation coordinator (main.go, logic) -/

/-- Per-service configuration flags and identifiers (config.go ServiceConfig). -/
structure ServicesConfig where
  ec2Enabled : Bool
  ec2InstanceID : String
  s3Enabled : Bool
  s3BucketName : String
  albEnabled : Bool
  albName : String
  cfEnabled : Bool
  cfDistributionID : String
  cwAgentEnabled : Bool
  cwAgentInstanceID : String
  logsEnabled : Bool
  logGroupNames : List String
  wafEnabled : Bool
  wafWebACLID : String
  wafWebACLName : String
  wafScope : String
  dynamoEnabled : Bool
  dynamoTableNames : List String
  rdsEnabled : Bool
  rdsClusterID : String
  rdsInstanceID : String
deriving Repr, DecidableEq

/-- A value of the allMetrics map: a flat MetricSet, the per-table DynamoDB
map, or the per-log-group counts map (Go stores these behind the any type). -/
inductive ReportValue where
  | metrics (m : MetricSet)
  | tables (m : List (String × MetricSet))
  | logGroups (m : List (String × LogCounts))
deriving Repr, DecidableEq

/-- The allMetrics map built by logic, in insertion order. -/
abbrev AggregatedReport := List (String × ReportValue)

/-- The outcome of each collector invocation of one cycle, abstracted from the
backend calls: logic only branches on whether each call returned an error. -/
structure CollectorOutcomes where
  ec2 : Except Unit MetricSet
  s3 : Except Unit MetricSet
  alb : Except Unit MetricSet
  cloudfront : Except Unit MetricSet
  cwagent : Except Unit MetricSet
  logs : String → Except Unit LogCounts
  waf : Except Unit MetricSet
  dynamo : String → Except Unit MetricSet
  rds : Except Unit MetricSet

/-- The map entry a service contributes: one key when its slot is filled. -/
def optEntry (key : String) (x : Option ReportValue) : AggregatedReport :=
  match x with
  | some v => [(key, v)]
  | none => []

/-- Slot for a single-resource service: present exactly when the service is
enabled and its collector returned without error. -/
def flatSlot (enabled : Bool) (r : Except Unit MetricSet) : Option ReportValue :=
  if enabled then
    match r with
    | Except.ok m => some (ReportValue.metrics m)
    | Except.error _ => none
  else none

/-- Slot for S3, additionally gated on the daily report (main.go line 95). -/
def s3Slot (enabled isDaily : Bool) (r : Except Unit MetricSet) : Option ReportValue :=
  if enabled && isDaily then
    match r with
    | Except.ok m => some (ReportValue.metrics m)
    | Except.error _ => none
  else none

/-- Per-log-group loop of logic: a failed group is logged and skipped. -/
def logsSuccesses (names : List String) (f : String → Except Unit LogCounts) :
    List (String × LogCounts) :=
  names.filterMap (fun g =>
    match f g with
    | Except.ok c => some (g, c)
    | Except.error _ => none)

/-- Slot for the logs service: present when enabled and at least one group
succeeded (len(logMetrics) > 0). -/
def logsSlot (enabled : Bool) (names : List String)
    (f : String → Except Unit LogCounts) : Option ReportValue :=
  if enabled then
    let lm := logsSuccesses names f
    if lm.isEmpty then none else some (ReportValue.logGroups lm)
  else none

/-- Per-table loop of logic: a failed table is logged and skipped. -/
def dynamoSuccesses (names : List String) (f : String → Except Unit MetricSet) :
    List (String × MetricSet) :=
  names.filterMap (fun t =>
    match f t with
    | Except.ok m => some (t, m)
    | Except.error _ => none)

/-- Slot for DynamoDB: present when enabled and at least one table succeeded. -/
def dynamoSlot (enabled : Bool) (names : List String)
    (f : String → Except Unit MetricSet) : Option ReportValue :=
  if enabled then
    let dm := dynamoSuccesses names f
    if dm.isEmpty then none else some (ReportValue.tables dm)
  else none

/-- The collection stage of logic (main.go lines 86 to 208): each enabled
collector's successful result is inserted under its fixed key, in program
order; a failure is logged and contributes nothing. -/
def collectStage (cfg : ServicesConfig) (isDaily : Bool) (o : CollectorOutcomes) :
    AggregatedReport :=
  optEntry "ec2" (flatSlot cfg.ec2Enabled o.ec2) ++
  optEntry "s3" (s3Slot cfg.s3Enabled isDaily o.s3) ++
  optEntry "alb" (flatSlot cfg.albEnabled o.alb) ++
  optEntry "cloudfront" (flatSlot cfg.cfEnabled o.cloudfront) ++
  optEntry "cloudwatchAgent" (flatSlot cfg.cwAgentEnabled o.cwagent) ++
  optEntry "cloudwatchLogs" (logsSlot cfg.logsEnabled cfg.logGroupNames o.logs) ++
  optEntry "waf" (flatSlot cfg.wafEnabled o.waf) ++
  optEntry "dynamodb" (dynamoSlot cfg.dynamoEnabled cfg.dynamoTableNames o.dynamo) ++
  optEntry "rds" (flatSlot cfg.rdsEnabled o.rds)

/-- Concrete coordinator run for the witness: EC2 and logs enabled and
successful, ALB enabled but failing, DynamoDB enabled with every table
failing. -/
def outcomesW : CollectorOutcomes :=
  { ec2 := Except.ok [( "CPUUtilization_Average", 1)],
    s3 := Except.error (), alb := Except.error (), cloudfront := Except.error (),
    cwagent := Except.error (),
    logs := fun _ => Except.ok { error := 2, warn := 1, info := 0 },
    waf := Except.error (), dynamo := fun _ => Except.error (),
    rds := Except.error () }

/-- Configuration used by the coordinator witness. -/
def cfgW : ServicesConfig :=
  { ec2Enabled := true, ec2InstanceID := "i-1",
    s3Enabled := false, s3BucketName := "",
    albEnabled := true, albName := "my-alb",
    cfEnabled := false, cfDistributionID := "",
    cwAgentEnabled := false, cwAgentInstanceID := "",
    logsEnabled := true, logGroupNames := [ "app-log"],
    wafEnabled := false, wafWebACLID := "", wafWebACLName := "", wafScope := "",
    dynamoEnabled := true, dynamoTableNames := [ "users"],
    rdsEnabled := false, rdsClusterID := "", rdsInstanceID := "" }


/-! ## Report assembler (utils/message.go) -/

/-- Character-level markdown escaping: each underscore becomes backslash plus
underscore and each asterisk becomes backslash plus asterisk.  The source
applies strings.ReplaceAll for the two characters in sequence; because the two
targets are distinct single characters and neither replacement introduces the
other's target, the sequential passes equal this single character map. -/
def escapeChars : List Char → List Char
  | [] => []
  | c :: t =>
    if c = '_' then '\\' :: '_' :: escapeChars t
    else if c = '*' then '\\' :: '*' :: escapeChars t
    else c :: escapeChars t

/-- Embedding of escapeMarkdown (utils/message.go). -/
def escapeMarkdown (s : String) : String := String.mk (escapeChars s.data)

/-- Decimal digit list of a natural number, most significant digit first; the
first argument is recursion fuel, always called with enough of it. -/
def natDigitsAux : Nat → Nat → List Char
  | 0, _ => []
  | fuel + 1, n =>
    if n < 10 then [Nat.digitChar n]
    else natDigitsAux fuel (n / 10) ++ [Nat.digitChar (n % 10)]

/-- Decimal digit list of a natural number. -/
def natToChars (n : Nat) : List Char := natDigitsAux (n + 1) n

/-- Decimal rendering of a rational with d fixed fraction digits, embedding
fmt.Sprintf with a fixed-point verb applied to a float64 value (the rounding
of the scaled magnitude is half-up; no tie is hit by the inputs used here).
Computed over the numerator and denominator directly so that the kernel can
evaluate it. -/
def formatFixed (x : Rat) (d : Nat) : String :=
  let neg : Bool := decide (x.num < 0)
  let scaledNum : Nat := x.num.natAbs * 10 ^ d
  let den : Nat := x.den
  let q : Nat := (2 * scaledNum + den) / (2 * den)
  let digits := natToChars q
  let padded := if digits.length < d + 1 then
      List.replicate (d + 1 - digits.length) '0' ++ digits
    else digits
  let ip := padded.take (padded.length - d)
  let fp := padded.drop (padded.length - d)
  String.mk ((if neg then [ '-'] else []) ++ ip ++
    (if d = 0 then [] else '.' :: fp))

/-- Shorthand: format a Go map read (zero default) with d fraction digits. -/
def fmtF (m : MetricSet) (k : String) (d : Nat) : String :=
  formatFixed (lookupF m k) d

/-- The routine-report delimiter line. -/
def scheduleSeparator : String := "- - - - - - - - - - - - - - -"

/-- The daily-report delimiter line. -/
def dailySeparator : String := "= = = = = = = = = = = = = = ="

/-- Substring helpers embedding strings.Contains. -/
def leadsL : List Char → List Char → Bool
  | [], _ => true
  | _ :: _, [] => false
  | a :: as, b :: bs => a == b && leadsL as bs

def hasSubL (sub : List Char) : List Char → Bool
  | [] => leadsL sub []
  | c :: t => leadsL sub (c :: t) || hasSubL sub t

/-- Embedding of strings.Contains: sub occurs contiguously inside s. -/
def containsSub (s sub : String) : Bool := hasSubL sub.data s.data

/-- Concatenation of the strings written by one loop of WriteString calls. -/
def joinAll : List String → String
  | [] => ""
  | s :: rest => s ++ joinAll rest

/-- Key lookup inside a collector result, none when the collector failed. -/
def exceptLookup (r : Except String MetricSet) (k : String) : Option Rat :=
  match r with
  | Except.ok ms => ms.lookup k
  | Except.error _ => none

/-- Scanner used to state the escaping property: does the text hold an
underscore or asterisk that is not immediately preceded by a backslash? -/
def unescapedAfter : Char → List Char → Bool
  | _, [] => false
  | prev, c :: t =>
    ((c == '_' || c == '*') && !(prev == '\\')) || unescapedAfter c t

/-- Scanner entry point: an unescaped markdown mark anywhere in the text. -/
def unescapedMark : List Char → Bool
  | [] => false
  | c :: t => (c == '_' || c == '*') || unescapedAfter c t

/-- EC2 block of BuildMessage.  The instance id is interpolated verbatim. -/
def ec2Section (cfg : ServicesConfig) (am : AggregatedReport) : String :=
  if cfg.ec2Enabled then
    match am.lookup "ec2" with
    | some (ReportValue.metrics m) =>
      "*EC2*: " ++ cfg.ec2InstanceID ++ "\n" ++
      "CPU: " ++ fmtF m "CPUUtilization_Average" 2 ++ "% (avg), " ++
        fmtF m "CPUUtilization_Maximum" 2 ++ "% (max)\n" ++
      "Status Checks Failed: " ++ fmtF m "StatusCheckFailed" 0 ++ "\n" ++
      "Network In: " ++ fmtF m "NetworkIn" 2 ++ " MB\n" ++
      "Network Out: " ++ fmtF m "NetworkOut" 2 ++ " MB\n"
    | _ => ""
  else ""

/-- CloudWatch agent block of BuildMessage. -/
def cwAgentSection (cfg : ServicesConfig) (am : AggregatedReport) : String :=
  if cfg.cwAgentEnabled then
    match am.lookup "cloudwatchAgent" with
    | some (ReportValue.metrics m) =>
      "Memory: " ++ fmtF m "mem_used_percent_Average" 2 ++ "% (avg), " ++
        fmtF m "mem_used_percent_Maximum" 2 ++ "% (max)\n" ++
      "Disk: " ++ fmtF m "disk_used_percent" 2 ++ "%\n" ++ "\n"
    | _ => ""
  else ""

/-- S3 block of BuildMessage; the bucket name is escaped. -/
def s3Section (cfg : ServicesConfig) (isDaily : Bool) (am : AggregatedReport) : String :=
  if cfg.s3Enabled && isDaily then
    match am.lookup "s3" with
    | some (ReportValue.metrics m) =>
      "*S3* " ++ escapeMarkdown cfg.s3BucketName ++ "\n" ++
      "Size: " ++ fmtF m "BucketSizeMB" 2 ++ " MB\n" ++
      "Objects: " ++ fmtF m "NumberOfObjects" 0 ++ "\n" ++ "\n"
    | _ => ""
  else ""

/-- ALB block of BuildMessage; the load-balancer name is escaped. -/
def albSection (cfg : ServicesConfig) (am : AggregatedReport) : String :=
  if cfg.albEnabled then
    match am.lookup "alb" with
    | some (ReportValue.metrics m) =>
      "*ALB* " ++ escapeMarkdown cfg.albName ++ "\n" ++
      "Requests: " ++ fmtF m "RequestCount" 0 ++ "\n" ++
      "Response Time: " ++ fmtF m "TargetResponseTime" 3 ++ " s\n" ++
      "2xx: " ++ fmtF m "HTTPCode_Target_2XX_Count" 0 ++ ", 4xx: " ++
        fmtF m "HTTPCode_Target_4XX_Count" 0 ++ ", 5xx: " ++
        fmtF m "HTTPCode_Target_5XX_Count" 0 ++ "\n" ++
      "Healthy: " ++ fmtF m "HealthyHostCount" 0 ++ ", Unhealthy: " ++
        fmtF m "UnHealthyHostCount" 0 ++ "\n" ++
      "ALB Errors: " ++
        formatFixed (lookupF m "HTTPCode_ELB_4XX_Count" +
          lookupF m "HTTPCode_ELB_5XX_Count") 0 ++ "\n" ++ "\n"
    | _ => ""
  else ""

/-- CloudFront block of BuildMessage.  The distribution id is interpolated
verbatim. -/
def cfSection (cfg : ServicesConfig) (am : AggregatedReport) : String :=
  if cfg.cfEnabled then
    match am.lookup "cloudfront" with
    | some (ReportValue.metrics m) =>
      "*CloudFront* " ++ cfg.cfDistributionID ++ "\n" ++
      "Requests: " ++ fmtF m "Requests" 0 ++ "\n" ++
      "4xx Error Rate: " ++ fmtF m "4xxErrorRate" 2 ++ "%\n" ++
      "5xx Error Rate: " ++ fmtF m "5xxErrorRate" 2 ++ "%\n" ++
      " Uploaded: " ++ fmtF m "BytesUploaded" 2 ++ " MB\n" ++
      " Downloaded: " ++ fmtF m "BytesDownloaded" 2 ++ " MB\n" ++ "\n"
    | _ => ""
  else ""

/-- One table's block inside the DynamoDB section; the table name is escaped
and the N/A lines replace the two provisioned-only metric lines exactly when
the BillingMode marker is nonzero. -/
def dynamoTableBlock (tableName : String) (tm : MetricSet) : String :=
  "*DynamoDB* " ++ escapeMarkdown tableName ++ "\n" ++
  (if lookupF tm "BillingMode" = 0 then
    "Total Requests: " ++ fmtF tm "RequestCount" 0 ++ "\n" ++
    "Latency: " ++ fmtF tm "SuccessfulRequestLatency" 2 ++ " ms\n"
  else
    "Total Requests: N/A (On-Demand)\n" ++ "Latency: N/A\n") ++
  "Items: " ++ fmtF tm "ItemCount" 0 ++ "\n" ++
  "Read Throttles: " ++ fmtF tm "ReadThrottleEvents" 0 ++ "\n" ++
  "Write Throttles: " ++ fmtF tm "WriteThrottleEvents" 0 ++ "\n" ++
  "Read Capacity: " ++ fmtF tm "ConsumedReadCapacityUnits" 0 ++ " units\n" ++
  "Write Capacity: " ++ fmtF tm "ConsumedWriteCapacityUnits" 0 ++ " units\n" ++
  "DB Errors: " ++
    formatFixed (lookupF tm "UserErrors" + lookupF tm "SystemErrors") 0 ++ "\n" ++
  "\n"

/-- DynamoDB section of BuildMessage: tables in configured order, skipping
tables absent from the nested map. -/
def dynamoSection (cfg : ServicesConfig) (am : AggregatedReport) : String :=
  if cfg.dynamoEnabled then
    match am.lookup "dynamodb" with
    | some (ReportValue.tables dm) =>
      joinAll (cfg.dynamoTableNames.map (fun t =>
        match dm.lookup t with
        | some tm => dynamoTableBlock t tm
        | none => ""))
    | _ => ""
  else ""

/-- RDS section of BuildMessage; cluster and instance identifiers are escaped,
and each metric line is emitted only when its key is present. -/
def rdsSection (cfg : ServicesConfig) (am : AggregatedReport) : String :=
  if cfg.rdsEnabled then
    match am.lookup "rds" with
    | some (ReportValue.metrics m) =>
      let rdsHeader :=
        if cfg.rdsClusterID ≠ "" ∧ cfg.rdsInstanceID ≠ "" then
          "*RDS* " ++ escapeMarkdown cfg.rdsClusterID ++ " / " ++
            escapeMarkdown cfg.rdsInstanceID
        else if cfg.rdsClusterID ≠ "" then
          "*RDS Cluster* " ++ escapeMarkdown cfg.rdsClusterID
        else
          "*RDS Instance* " ++ escapeMarkdown cfg.rdsInstanceID
      rdsHeader ++ "\n" ++
      (if cfg.rdsInstanceID ≠ "" then
        (match m.lookup "Instance_CPUUtilization_Average" with
         | some cpu =>
           "CPU: " ++ formatFixed cpu 2 ++ "% (avg)" ++
           (match m.lookup "Instance_CPUUtilization_Maximum" with
            | some cpuMax => ", " ++ formatFixed cpuMax 2 ++ "% (max)"
            | none => "") ++ "\n"
         | none => "") ++
        (match m.lookup "Instance_FreeableMemory" with
         | some mem => "Free Memory: " ++ formatFixed mem 2 ++ " GB\n"
         | none => "") ++
        (match m.lookup "Instance_DatabaseConnections" with
         | some conn => "Connections: " ++ formatFixed conn 0 ++ "\n"
         | none => "") ++
        (match m.lookup "Instance_ReadLatency" with
         | some rl => "Read Latency: " ++ formatFixed rl 2 ++ " ms\n"
         | none => "") ++
        (match m.lookup "Instance_WriteLatency" with
         | some wl => "Write Latency: " ++ formatFixed wl 2 ++ " ms\n"
         | none => "")
      else "") ++
      (if cfg.rdsClusterID ≠ "" then
        (match m.lookup "Cluster_VolumeBytesUsed" with
         | some v => "Volume Size: " ++ formatFixed v 2 ++ " GB\n"
         | none => "") ++
        (match m.lookup "Cluster_VolumeReadIOPs" with
         | some v => "Read IOPS: " ++ formatFixed v 0 ++ "\n"
         | none => "") ++
        (match m.lookup "Cluster_VolumeWriteIOPs" with
         | some v => "Write IOPS: " ++ formatFixed v 0 ++ "\n"
         | none => "")
      else "") ++ "\n"
    | _ => ""
  else ""

/-- WAF section of BuildMessage; the web ACL name is escaped. -/
def wafSection (cfg : ServicesConfig) (am : AggregatedReport) : String :=
  if cfg.wafEnabled then
    match am.lookup "waf" with
    | some (ReportValue.metrics m) =>
      "*WAF* " ++ escapeMarkdown cfg.wafWebACLName ++ "\n" ++
      "Allowed Requests: " ++ fmtF m "AllowedRequests" 0 ++ "\n" ++
      "Blocked Requests: " ++ fmtF m "BlockedRequests" 0 ++ "\n" ++ "\n"
    | _ => ""
  else ""

/-- One log group's lines; the group name is escaped. -/
def logBlock (g : String) (c : LogCounts) : String :=
  escapeMarkdown g ++ ":\n" ++
  "INFO: " ++ toString c.info ++ "\n" ++
  "WARN: " ++ toString c.warn ++ "\n" ++
  "ERROR: " ++ toString c.error ++ "\n" ++ "\n"

/-- The application sub-map keys (insertion order): configured groups present
in the collected map whose name does not contain the Lambda prefix path. -/
def logsAppKeys (names : List String) (lm : List (String × LogCounts)) : List String :=
  names.filter (fun g => (lm.lookup g).isSome && !(containsSub g "/aws/lambda/"))

/-- The Lambda sub-map keys (insertion order). -/
def logsLamKeys (names : List String) (lm : List (String × LogCounts)) : List String :=
  names.filter (fun g => (lm.lookup g).isSome && containsSub g "/aws/lambda/")

/-- Logs section of BuildMessage.  The source ranges over the two Go maps it
just built; Go leaves that range order unspecified, so the two orders are
passed as explicit parameters (intended to be permutations of the key lists),
while the emptiness tests use the maps themselves. -/
def logsSection (cfg : ServicesConfig) (am : AggregatedReport)
    (appIter lamIter : List String) : String :=
  if cfg.logsEnabled then
    match am.lookup "cloudwatchLogs" with
    | some (ReportValue.logGroups lm) =>
      (if (logsAppKeys cfg.logGroupNames lm).isEmpty then ""
       else
        "*APPLICATION*\n" ++
        joinAll (appIter.map (fun g => logBlock g ((lm.lookup g).getD ⟨ 0, 0, 0⟩)))) ++
      (if (logsLamKeys cfg.logGroupNames lm).isEmpty then ""
       else
        "*LAMBDA*\n" ++
        joinAll (lamIter.map (fun g => logBlock g ((lm.lookup g).getD ⟨ 0, 0, 0⟩))))
    | _ => ""
  else ""

/-- Embedding of utils.BuildMessage.  endText embeds the formatted end
timestamp (EndTime.Format); appIter and lamIter embed the unspecified Go map
range orders of the two log sub-maps. -/
def BuildMessage (cfg : ServicesConfig) (tp : TimeParams) (endText : String)
    (am : AggregatedReport) (appIter lamIter : List String) : String :=
  (if tp.isDailyReport then "\n" ++ dailySeparator ++ "\n\n"
   else "\n" ++ scheduleSeparator ++ "\n\n") ++
  endText ++ "\n\n" ++
  ec2Section cfg am ++
  cwAgentSection cfg am ++
  s3Section cfg tp.isDailyReport am ++
  albSection cfg am ++
  cfSection cfg am ++
  dynamoSection cfg am ++
  rdsSection cfg am ++
  wafSection cfg am ++
  logsSection cfg am appIter lamIter ++
  (if tp.isDailyReport then dailySeparator ++ "\n" else scheduleSeparator ++ "\n")


/-! ## Collectors with a ListMetrics resolution step, and the RDS collector
(services/ec2.go second half, services/cwagent.go, services/rds.go).  They
are placed after the assembler helpers because the ALB and RDS value paths
reuse the strings.Contains and strings.HasPrefix embeddings. -/

/-- One metric series returned by ListMetrics: its dimension list. -/
structure MetricSeries where
  dimensions : List (String × String)
deriving Repr, DecidableEq

/-- The ListMetrics request built by the resolution steps of ALBMetrics and
CWAgentMetrics. -/
structure LMInput where
  ns : String
  metricName : String
  dimensionFilters : List (String × String)
deriving Repr, DecidableEq

/-- The ListMetrics side of the CloudWatch backend. -/
abbrev ListBackend := LMInput → Except Unit (List MetricSeries)

/-- Inner dimension scan of the ALB resolution loop: the first dimension
named LoadBalancer whose value contains albName is taken and the inner loop
breaks; otherwise the accumulator is kept. -/
def albDimFromDims (albName : String) : List (String × String) → String → String
  | [], acc => acc
  | (n, v) :: rest, acc =>
    if n == "LoadBalancer" && containsSub v albName then v
    else albDimFromDims albName rest acc

/-- Outer metric scan of the ALB resolution loop: the outer loop breaks at
the first metric whose dimension scan produced a non-empty identifier. -/
def albDimFromMetrics (albName : String) : List MetricSeries → String → String
  | [], acc => acc
  | m :: rest, acc =>
    let acc2 := albDimFromDims albName m.dimensions acc
    if acc2 == "" then albDimFromMetrics albName rest acc2 else acc2

/-- The ListMetrics request of the ALB resolution step. -/
def albListInput : LMInput :=
  { ns := "AWS/ApplicationELB", metricName := "RequestCount",
    dimensionFilters := [] }

/-- Fixed ALB metric table (services/ec2.go, ALBMetrics). -/
def albMetricsTable : List MetricSpec :=
  [ ⟨ "RequestCount", "Sum", "Count"⟩,
    ⟨ "TargetResponseTime", "Average", "Seconds"⟩,
    ⟨ "HTTPCode_Target_2XX_Count", "Sum", "Count"⟩,
    ⟨ "HTTPCode_Target_4XX_Count", "Sum", "Count"⟩,
    ⟨ "HTTPCode_Target_5XX_Count", "Sum", "Count"⟩,
    ⟨ "HTTPCode_ELB_4XX_Count", "Sum", "Count"⟩,
    ⟨ "HTTPCode_ELB_5XX_Count", "Sum", "Count"⟩,
    ⟨ "HealthyHostCount", "Average", "Count"⟩,
    ⟨ "UnHealthyHostCount", "Average", "Count"⟩ ]

/-- The GetMetricStatistics request built by ALBMetrics for one table row;
the unit column is set on the request whenever it is non-empty. -/
def albInputFor (lbDim : String) (st en p : Int) (spec : MetricSpec) : GMSInput :=
  { ns := "AWS/ApplicationELB", metricName := spec.name,
    dimensions := [( "LoadBalancer", lbDim)],
    startTime := st, endTime := en, period := p, statistic := spec.statistic,
    unit := if spec.unitLabel == "" then none else some spec.unitLabel }

/-- Value recorded by ALBMetrics from one response: 0.0 for an empty
datapoint list, else Datapoints[0]'s Average or Sum per the table row (the
Go switch leaves the float64 zero value for any other statistic). -/
def albValue (spec : MetricSpec) : List Datapoint → Rat
  | [] => 0
  | dp :: _ =>
    if spec.statistic == "Average" then dp.average
    else if spec.statistic == "Sum" then dp.sum
    else 0

/-- The query loop of ALBMetrics: the first query error aborts the
collector; otherwise each row records its value under the metric name. -/
def albLoop (cw : CWBackend) (lbDim : String) (st en p : Int) :
    List MetricSpec → MetricSet → Except String MetricSet
  | [], acc => Except.ok acc
  | spec :: rest, acc =>
    match cw (albInputFor lbDim st en p spec) with
    | Except.error _ => Except.error ( "error getting " ++ spec.name)
    | Except.ok dps =>
      albLoop cw lbDim st en p rest (mapInsert acc spec.name (albValue spec dps))

/-- Embedding of services.ALBMetrics: a name already carrying the app/ form
is used verbatim as the LoadBalancer dimension; otherwise the dimension is
resolved from ListMetrics, failing when no dimension value contains the
name. -/
def ALBMetrics (cw : CWBackend) (lm : ListBackend) (albName : String)
    (st en : Int) : Except String MetricSet :=
  let p := periodFor st en
  if leadsL "app/".data albName.data then
    albLoop cw albName st en p albMetricsTable []
  else
    match lm albListInput with
    | Except.error _ => Except.error "error listing ALB metrics"
    | Except.ok series =>
      let lbDim := albDimFromMetrics albName series ""
      if lbDim == "" then
        Except.error ( "could not find LoadBalancer dimension for ALB: " ++ albName)
      else albLoop cw lbDim st en p albMetricsTable []

/-- The mem_used_percent request built by CWAgentMetrics for one statistic. -/
def cwaMemInput (instanceID : String) (st en p : Int) (stat : String) : GMSInput :=
  { ns := "CWAgent", metricName := "mem_used_percent",
    dimensions := [( "InstanceId", instanceID)],
    startTime := st, endTime := en, period := p, statistic := stat, unit := none }

/-- Value recorded by CWAgentMetrics for one memory statistic: 0.0 for an
empty datapoint list, else Datapoints[0].Average for the Average row and
Datapoints[0].Maximum otherwise. -/
def cwaMemValue (stat : String) : List Datapoint → Rat
  | [] => 0
  | dp :: _ => if stat == "Average" then dp.average else dp.maximum

/-- Dimension scan of the disk-discovery loop over one metric's dimensions:
device and fstype each keep the last matching dimension value seen (the Go
switch has no break and the nil guards always pass in this embedding). -/
def cwaScanDims : List (String × String) → String → String → String × String
  | [], device, fstype => (device, fstype)
  | (n, v) :: rest, device, fstype =>
    if n == "device" then cwaScanDims rest v fstype
    else if n == "fstype" then cwaScanDims rest device v
    else cwaScanDims rest device fstype

/-- Metric scan of the disk-discovery loop: metrics lacking an InstanceId
dimension equal to the configured instance are skipped; the loop breaks once
both device and fstype are non-empty. -/
def cwaScanSeries (instanceID : String) :
    List MetricSeries → String → String → String × String
  | [], device, fstype => (device, fstype)
  | m :: rest, device, fstype =>
    if m.dimensions.any (fun dim => dim.1 == "InstanceId" && dim.2 == instanceID) then
      let pr := cwaScanDims m.dimensions device fstype
      if pr.1 == "" || pr.2 == "" then cwaScanSeries instanceID rest pr.1 pr.2
      else pr
    else cwaScanSeries instanceID rest device fstype

/-- The ListMetrics request of the disk-dimension discovery. -/
def cwaDiskListInput (instanceID : String) : LMInput :=
  { ns := "CWAgent", metricName := "disk_used_percent",
    dimensionFilters := [( "InstanceId", instanceID), ( "path", "/")] }

/-- The disk_used_percent request with the discovered device and fstype. -/
def cwaDiskInput (instanceID device fstype : String) (st en p : Int) : GMSInput :=
  { ns := "CWAgent", metricName := "disk_used_percent",
    dimensions := [( "InstanceId", instanceID), ( "path", "/"),
      ( "device", device), ( "fstype", fstype)],
    startTime := st, endTime := en, period := p, statistic := "Average",
    unit := none }

/-- Value recorded for disk_used_percent: 0.0 for an empty datapoint list,
else Datapoints[0].Average. -/
def cwaDiskValue : List Datapoint → Rat
  | [] => 0
  | dp :: _ => dp.average

/-- Embedding of services.CWAgentMetrics; the two-statistic memory loop is
unrolled (its Go range list is the literal Average, Maximum pair).  Any
query or ListMetrics error aborts the collector; an empty datapoint list
records 0.0. -/
def CWAgentMetrics (cw : CWBackend) (lm : ListBackend) (instanceID : String)
    (st en : Int) : Except String MetricSet :=
  let p := periodFor st en
  match cw (cwaMemInput instanceID st en p "Average") with
  | Except.error _ => Except.error "error getting mem_used_percent (Average)"
  | Except.ok dA =>
  match cw (cwaMemInput instanceID st en p "Maximum") with
  | Except.error _ => Except.error "error getting mem_used_percent (Maximum)"
  | Except.ok dM =>
  match lm (cwaDiskListInput instanceID) with
  | Except.error _ => Except.error "error listing disk metrics"
  | Except.ok series =>
    let pr := cwaScanSeries instanceID series "" ""
    match cw (cwaDiskInput instanceID pr.1 pr.2 st en p) with
    | Except.error _ => Except.error "error getting disk_used_percent"
    | Except.ok dD =>
      Except.ok (mapInsert (mapInsert (mapInsert []
        "mem_used_percent_Average" (cwaMemValue "Average" dA))
        "mem_used_percent_Maximum" (cwaMemValue "Maximum" dM))
        "disk_used_percent" (cwaDiskValue dD))

/-- Fixed per-instance RDS metric table (services/rds.go). -/
def rdsInstanceTable : List MetricSpec :=
  [ ⟨ "CPUUtilization", "Average", "%"⟩,
    ⟨ "CPUUtilization", "Maximum", "%"⟩,
    ⟨ "FreeableMemory", "Average", "bytes"⟩,
    ⟨ "DatabaseConnections", "Maximum", "count"⟩,
    ⟨ "ReadLatency", "Average", "seconds"⟩,
    ⟨ "WriteLatency", "Average", "seconds"⟩ ]

/-- Fixed per-cluster RDS metric table. -/
def rdsClusterTable : List MetricSpec :=
  [ ⟨ "VolumeBytesUsed", "Average", "bytes"⟩,
    ⟨ "VolumeReadIOPs", "Average", "count/5min"⟩,
    ⟨ "VolumeWriteIOPs", "Average", "count/5min"⟩ ]

/-- The GetMetricStatistics request for one instance-level RDS row. -/
def rdsInstanceInputFor (instanceID : String) (st en p : Int)
    (spec : MetricSpec) : GMSInput :=
  { ns := "AWS/RDS", metricName := spec.name,
    dimensions := [( "DBInstanceIdentifier", instanceID)],
    startTime := st, endTime := en, period := p, statistic := spec.statistic,
    unit := none }

/-- The map key of one instance-level row: CPUUtilization rows carry their
statistic in the key. -/
def rdsInstanceKey (spec : MetricSpec) : String :=
  if spec.name == "CPUUtilization" then "Instance_CPUUtilization_" ++ spec.statistic
  else "Instance_" ++ spec.name

/-- Value recorded for one instance-level row: 0.0 for an empty datapoint
list, else the statistic of Datapoints[0], with FreeableMemory converted to
GB and the latencies to milliseconds. -/
def rdsInstanceValue (spec : MetricSpec) : List Datapoint → Rat
  | [] => 0
  | dp :: _ =>
    let v : Rat :=
      if spec.statistic == "Average" then dp.average
      else if spec.statistic == "Maximum" then dp.maximum
      else if spec.statistic == "Sum" then dp.sum
      else 0
    let v2 : Rat :=
      if spec.name == "FreeableMemory" then v / (1024 * 1024 * 1024) else v
    if spec.name == "ReadLatency" || spec.name == "WriteLatency" then v2 * 1000
    else v2

/-- The instance-level query loop: a failed query is logged and skipped with
continue (its key stays absent); the loop itself never fails. -/
def rdsInstanceLoop (cw : CWBackend) (instanceID : String) (st en p : Int) :
    List MetricSpec → MetricSet → MetricSet
  | [], acc => acc
  | spec :: rest, acc =>
    match cw (rdsInstanceInputFor instanceID st en p spec) with
    | Except.error _ => rdsInstanceLoop cw instanceID st en p rest acc
    | Except.ok dps =>
      rdsInstanceLoop cw instanceID st en p rest
        (mapInsert acc (rdsInstanceKey spec) (rdsInstanceValue spec dps))

/-- The GetMetricStatistics request for one cluster-level RDS row. -/
def rdsClusterInputFor (clusterID : String) (st en p : Int)
    (spec : MetricSpec) : GMSInput :=
  { ns := "AWS/RDS", metricName := spec.name,
    dimensions := [( "DBClusterIdentifier", clusterID)],
    startTime := st, endTime := en, period := p, statistic := spec.statistic,
    unit := none }

/-- Value recorded for one cluster-level row: 0.0 for an empty datapoint
list, else Average or Maximum of Datapoints[0], with storage metric names
(and VolumeBytesUsed) converted to GB and throughput names to MB. -/
def rdsClusterValue (spec : MetricSpec) : List Datapoint → Rat
  | [] => 0
  | dp :: _ =>
    let v : Rat :=
      if spec.statistic == "Average" then dp.average
      else if spec.statistic == "Maximum" then dp.maximum
      else 0
    let v2 : Rat :=
      if containsSub spec.name "Storage" || spec.name == "VolumeBytesUsed" then
        v / (1024 * 1024 * 1024)
      else v
    if containsSub spec.name "Throughput" then v2 / (1024 * 1024) else v2

/-- The cluster-level query loop: a failed query is logged and skipped as in
the instance loop, under Cluster-prefixed keys. -/
def rdsClusterLoop (cw : CWBackend) (clusterID : String) (st en p : Int) :
    List MetricSpec → MetricSet → MetricSet
  | [], acc => acc
  | spec :: rest, acc =>
    match cw (rdsClusterInputFor clusterID st en p spec) with
    | Except.error _ => rdsClusterLoop cw clusterID st en p rest acc
    | Except.ok dps =>
      rdsClusterLoop cw clusterID st en p rest
        (mapInsert acc ( "Cluster_" ++ spec.name) (rdsClusterValue spec dps))

/-- Embedding of services.RDSMetrics: fails only when both identifiers are
empty; otherwise the instance loop (when instanceID is set) and then the
cluster loop (when clusterID is set) run over the same map, and the
collector returns successfully regardless of query failures. -/
def RDSMetrics (cw : CWBackend) (clusterID instanceID : String) (st en : Int) :
    Except String MetricSet :=
  let p := periodFor st en
  if clusterID == "" && instanceID == "" then
    Except.error "both clusterID and instanceID are empty - at least one is required"
  else
    let m1 := if instanceID == "" then []
      else rdsInstanceLoop cw instanceID st en p rdsInstanceTable []
    Except.ok (if clusterID == "" then m1
      else rdsClusterLoop cw clusterID st en p rdsClusterTable m1)


/-! ## Concrete fixtures used by witnesses and counterexamples -/

/-- An earlier datapoint carrying the value 5 in every statistic. -/
def dpEarly : Datapoint := { timestamp := 0, average := 5, maximum := 5, sum := 5 }

/-- A later datapoint carrying the value 7 in every statistic. -/
def dpLate : Datapoint := { timestamp := 100, average := 7, maximum := 7, sum := 7 }

/-- A backend answering every query with the early-then-late datapoint pair. -/
def cwTwoPoints : CWBackend := fun _ => Except.ok [dpEarly, dpLate]

/-- A backend answering every query with an empty datapoint set. -/
def cwAllEmpty : CWBackend := fun _ => Except.ok []

/-- The EC2 result on cwTwoPoints: every value comes from the first element. -/
def ec2TwoPointsResult : MetricSet :=
  [ ( "CPUUtilization_Average", 5), ( "CPUUtilization_Maximum", 5),
    ( "StatusCheckFailed", 5), ( "NetworkIn", 5 / (1024 * 1024)),
    ( "NetworkOut", 5 / (1024 * 1024)) ]

/-- The DynamoDB result for an on-demand table of 42 items on cwAllEmpty. -/
def msOnDemandW : MetricSet :=
  [ ( "BillingMode", 1), ( "ItemCount", 42), ( "ReadThrottleEvents", 0),
    ( "WriteThrottleEvents", 0), ( "SystemErrors", 0), ( "UserErrors", 0),
    ( "ConsumedReadCapacityUnits", 0), ( "ConsumedWriteCapacityUnits", 0) ]

/-- Configuration with only the DynamoDB service enabled, for one table. -/
def cfgD : ServicesConfig :=
  { ec2Enabled := false, ec2InstanceID := "",
    s3Enabled := false, s3BucketName := "",
    albEnabled := false, albName := "",
    cfEnabled := false, cfDistributionID := "",
    cwAgentEnabled := false, cwAgentInstanceID := "",
    logsEnabled := false, logGroupNames := [],
    wafEnabled := false, wafWebACLID := "", wafWebACLName := "", wafScope := "",
    dynamoEnabled := true, dynamoTableNames := [ "users"],
    rdsEnabled := false, rdsClusterID := "", rdsInstanceID := "" }

/-- Aggregated report holding only the on-demand DynamoDB table. -/
def amD : AggregatedReport :=
  [( "dynamodb", ReportValue.tables [( "users", msOnDemandW)])]

/-- A backend failing exactly the AllowedRequests query, empty otherwise. -/
def cwErrAllowed : CWBackend := fun i =>
  if i.metricName == "AllowedRequests" then Except.error () else Except.ok []

/-- Configuration with only the logs service enabled, for two application log
groups. -/
def cfgC8 : ServicesConfig :=
  { ec2Enabled := false, ec2InstanceID := "",
    s3Enabled := false, s3BucketName := "",
    albEnabled := false, albName := "",
    cfEnabled := false, cfDistributionID := "",
    cwAgentEnabled := false, cwAgentInstanceID := "",
    logsEnabled := true, logGroupNames := [ "alpha", "beta"],
    wafEnabled := false, wafWebACLID := "", wafWebACLName := "", wafScope := "",
    dynamoEnabled := false, dynamoTableNames := [],
    rdsEnabled := false, rdsClusterID := "", rdsInstanceID := "" }

/-- Collected counts for the two application log groups. -/
def lmC8 : List (String × LogCounts) :=
  [( "alpha", { error := 1, warn := 0, info := 0 }),
   ( "beta", { error := 2, warn := 0, info := 0 })]

/-- Aggregated report holding only the two log groups. -/
def amC8 : AggregatedReport := [( "cloudwatchLogs", ReportValue.logGroups lmC8)]

/-- Configuration with only EC2 enabled, whose instance id holds a markdown
underscore. -/
def cfgC7 : ServicesConfig :=
  { ec2Enabled := true, ec2InstanceID := "i_1",
    s3Enabled := false, s3BucketName := "",
    albEnabled := false, albName := "",
    cfEnabled := false, cfDistributionID := "",
    cwAgentEnabled := false, cwAgentInstanceID := "",
    logsEnabled := false, logGroupNames := [],
    wafEnabled := false, wafWebACLID := "", wafWebACLName := "", wafScope := "",
    dynamoEnabled := false, dynamoTableNames := [],
    rdsEnabled := false, rdsClusterID := "", rdsInstanceID := "" }

/-! ## Theorems -/

/-- C1: with a valid timezone, GetTimeParams returns the daily window
(start = now minus 24 hours, isDailyReport true) whenever the local hour equals
the daily-report hour, even with defaultPeriod 0; otherwise the routine window
(start = now minus defaultPeriod hours, isDailyReport false) when
defaultPeriod is positive; otherwise the skip signal (ok none, not an error);
and every non-skip window has end = now and start strictly before end. -/
theorem getTimeParams_window_policy (tzValid : String → Bool) (nowSec : Int)
    (nowHour : Nat) (m : MonitoringConfig) (hTz : tzValid m.timezone = true) :
    (nowHour = m.dailyReportHour →
      getTimeParams tzValid nowSec nowHour m =
        Except.ok (some { startTime := nowSec - 24 * 3600, endTime := nowSec,
                          isDailyReport := true })) ∧
    (nowHour ≠ m.dailyReportHour → 0 < m.defaultPeriod →
      getTimeParams tzValid nowSec nowHour m =
        Except.ok (some { startTime := nowSec - (m.defaultPeriod : Int) * 3600,
                          endTime := nowSec, isDailyReport := false })) ∧
    (nowHour ≠ m.dailyReportHour → m.defaultPeriod = 0 →
      getTimeParams tzValid nowSec nowHour m = Except.ok none) ∧
    (∀ tp, getTimeParams tzValid nowSec nowHour m = Except.ok (some tp) →
      tp.endTime = nowSec ∧ tp.startTime < tp.endTime) := by
  unfold getTimeParams
  rw [hTz]
  refine ⟨?_, ?_, ?_, ?_⟩
  · intro h
    simp [h]
  · intro h hp
    have hb : (nowHour == m.dailyReportHour) = false := by
      simpa using h
    have hz : (m.defaultPeriod == 0) = false := by
      simp only [beq_eq_false_iff_ne, ne_eq]
      omega
    simp [hb, hz]
  · intro h hz
    have hb : (nowHour == m.dailyReportHour) = false := by
      simpa using h
    simp [hb, hz]
  · intro tp h
    by_cases hd : nowHour = m.dailyReportHour
    · simp [hd] at h
      refine ⟨?_, ?_⟩
      · rw [← h]
      · rw [← h]
        show nowSec - 24 * 3600 < nowSec
        omega
    · have hb : (nowHour == m.dailyReportHour) = false := by
        simpa using hd
      by_cases hz : m.defaultPeriod = 0
      · simp [hb, hz] at h
      · simp [hb, hz] at h
        refine ⟨?_, ?_⟩
        · rw [← h]
        · rw [← h]
          show nowSec - (m.defaultPeriod : Int) * 3600 < nowSec
          have : (1 : Int) ≤ (m.defaultPeriod : Int) := by
            exact_mod_cast Nat.one_le_iff_ne_zero.mpr hz
          nlinarith

/-- Witness for getTimeParams_window_policy at a concrete daily-hour input. -/
theorem getTimeParams_window_policy_witness :
    getTimeParams (fun _ => true) 100000 9
        { timezone := "UTC", defaultPeriod := 0, dailyReportHour := 9 } =
      Except.ok (some { startTime := 100000 - 24 * 3600, endTime := 100000,
                        isDailyReport := true }) :=
  (getTimeParams_window_policy (fun _ => true) 100000 9
    { timezone := "UTC", defaultPeriod := 0, dailyReportHour := 9 } rfl).1 rfl


theorem lookup_optEntry (key k : String) (x : Option ReportValue) :
    (optEntry key x).lookup k = if k == key then x else none := by
  cases x with
  | none => simp [optEntry]
  | some v =>
    by_cases h : k == key
    · simp [optEntry, List.lookup, h]
    · simp only [Bool.not_eq_true] at h
      simp [optEntry, List.lookup, h]

theorem lookup_append_or {α : Type} (l₁ l₂ : List (String × α)) (k : String) :
    (l₁ ++ l₂).lookup k = (l₁.lookup k).or (l₂.lookup k) := by
  induction l₁ with
  | nil => simp
  | cons p t ih =>
    obtain ⟨a, v⟩ := p
    by_cases h : k = a
    · subst h
      simp [List.lookup]
    · have hb : (k == a) = false := by simpa using h
      simp [List.lookup, hb, ih]

theorem or_none_rv {α : Type} (o : Option α) : o.or none = o := by
  cases o <;> rfl

theorem lookup_overwrite_ne (m : List (String × Rat)) (k k' : String) (v : Rat)
    (h : (k' == k) = false) :
    ((m.map fun p => if p.1 == k then (k, v) else p).lookup k') = m.lookup k' := by
  induction m with
  | nil => rfl
  | cons p t ih =>
    obtain ⟨a, b⟩ := p
    rw [List.map_cons]
    by_cases hak : a = k
    · subst hak
      rw [if_pos (show ((a, b).1 == a) = true by simp)]
      simp only [List.lookup, h]
      exact ih
    · rw [if_neg (show ¬ ((a, b).1 == k) = true by simpa using hak)]
      by_cases hka : k' = a
      · subst hka
        simp [List.lookup]
      · have hkb : (k' == a) = false := by simpa using hka
        simp only [List.lookup, hkb]
        exact ih

theorem lookup_not_any (m : List (String × Rat)) (k : String)
    (h : m.any (fun p => p.1 == k) = false) : m.lookup k = none := by
  induction m with
  | nil => rfl
  | cons p t ih =>
    obtain ⟨a, b⟩ := p
    rw [List.any_cons] at h
    have h1 : (a == k) = false := by
      cases haz : ((a, b).1 == k)
      · rfl
      · rw [haz] at h
        simp at h
    have h2 : t.any (fun p => p.1 == k) = false := by
      cases haz : t.any (fun p => p.1 == k)
      · rfl
      · rw [haz] at h
        simp at h
    have hk : (k == a) = false := by
      have h3 : ¬ a = k := by simpa using h1
      have h4 : ¬ k = a := fun hh => h3 hh.symm
      simpa using h4
    simp only [List.lookup, hk]
    exact ih h2

theorem lookup_overwrite_self (m : List (String × Rat)) (k : String) (v : Rat)
    (h : m.any (fun p => p.1 == k) = true) :
    ((m.map fun p => if p.1 == k then (k, v) else p).lookup k) = some v := by
  induction m with
  | nil => simp at h
  | cons p t ih =>
    obtain ⟨a, b⟩ := p
    rw [List.map_cons]
    by_cases hak : a = k
    · subst hak
      rw [if_pos (show ((a, b).1 == a) = true by simp)]
      simp [List.lookup]
    · rw [if_neg (show ¬ ((a, b).1 == k) = true by simpa using hak)]
      have hk : (k == a) = false := by
        have h4 : ¬ k = a := fun hh => hak hh.symm
        simpa using h4
      simp only [List.lookup, hk]
      apply ih
      rw [List.any_cons] at h
      have h1 : ((a, b).1 == k) = false := by simpa using hak
      rw [h1] at h
      simpa using h

theorem lookup_mapInsert_ne (m : List (String × Rat)) (k k' : String) (v : Rat)
    (h : (k' == k) = false) : (mapInsert m k v).lookup k' = m.lookup k' := by
  unfold mapInsert
  by_cases hany : m.any (fun p => p.1 == k) = true
  · rw [if_pos hany]
    exact lookup_overwrite_ne m k k' v h
  · rw [if_neg hany]
    rw [lookup_append_or]
    have hone : ([(k, v)] : List (String × Rat)).lookup k' = none := by
      simp [List.lookup, h]
    rw [hone, or_none_rv]

theorem lookup_mapInsert_self (m : List (String × Rat)) (k : String) (v : Rat) :
    (mapInsert m k v).lookup k = some v := by
  unfold mapInsert
  by_cases hany : m.any (fun p => p.1 == k) = true
  · rw [if_pos hany]
    exact lookup_overwrite_self m k v hany
  · rw [if_neg hany]
    have hf : m.any (fun p => p.1 == k) = false := by
      cases hz : m.any (fun p => p.1 == k)
      · rfl
      · exact absurd hz hany
    rw [lookup_append_or, lookup_not_any m k hf]
    simp [List.lookup]

/-- C2: in every cycle that reaches the collection stage, each service key of
the aggregated report is determined by that service's own outcome alone (so
one collector's failure, or one sub-resource's failure inside the DynamoDB or
logs loops, never disturbs another service's entry), an enabled collector that
succeeded is always present, and a multi-resource service whose resources all
failed merely has its key absent. -/
theorem coordinator_failure_isolation (cfg : ServicesConfig) (isDaily : Bool)
    (o : CollectorOutcomes) :
    ((collectStage cfg isDaily o).lookup "ec2" = flatSlot cfg.ec2Enabled o.ec2) ∧
    ((collectStage cfg isDaily o).lookup "s3" = s3Slot cfg.s3Enabled isDaily o.s3) ∧
    ((collectStage cfg isDaily o).lookup "alb" = flatSlot cfg.albEnabled o.alb) ∧
    ((collectStage cfg isDaily o).lookup "cloudfront" = flatSlot cfg.cfEnabled o.cloudfront) ∧
    ((collectStage cfg isDaily o).lookup "cloudwatchAgent" = flatSlot cfg.cwAgentEnabled o.cwagent) ∧
    ((collectStage cfg isDaily o).lookup "cloudwatchLogs" =
      logsSlot cfg.logsEnabled cfg.logGroupNames o.logs) ∧
    ((collectStage cfg isDaily o).lookup "waf" = flatSlot cfg.wafEnabled o.waf) ∧
    ((collectStage cfg isDaily o).lookup "dynamodb" =
      dynamoSlot cfg.dynamoEnabled cfg.dynamoTableNames o.dynamo) ∧
    ((collectStage cfg isDaily o).lookup "rds" = flatSlot cfg.rdsEnabled o.rds) ∧
    (∀ m, cfg.ec2Enabled = true → o.ec2 = Except.ok m →
      (collectStage cfg isDaily o).lookup "ec2" = some (ReportValue.metrics m)) ∧
    (cfg.dynamoEnabled = true →
      (∀ t ∈ cfg.dynamoTableNames, o.dynamo t = Except.error ()) →
      (collectStage cfg isDaily o).lookup "dynamodb" = none) ∧
    (cfg.logsEnabled = true →
      (∀ g ∈ cfg.logGroupNames, o.logs g = Except.error ()) →
      (collectStage cfg isDaily o).lookup "cloudwatchLogs" = none) := by
  have base :
      ((collectStage cfg isDaily o).lookup "ec2" = flatSlot cfg.ec2Enabled o.ec2) ∧
      ((collectStage cfg isDaily o).lookup "s3" = s3Slot cfg.s3Enabled isDaily o.s3) ∧
      ((collectStage cfg isDaily o).lookup "alb" = flatSlot cfg.albEnabled o.alb) ∧
      ((collectStage cfg isDaily o).lookup "cloudfront" = flatSlot cfg.cfEnabled o.cloudfront) ∧
      ((collectStage cfg isDaily o).lookup "cloudwatchAgent" = flatSlot cfg.cwAgentEnabled o.cwagent) ∧
      ((collectStage cfg isDaily o).lookup "cloudwatchLogs" =
        logsSlot cfg.logsEnabled cfg.logGroupNames o.logs) ∧
      ((collectStage cfg isDaily o).lookup "waf" = flatSlot cfg.wafEnabled o.waf) ∧
      ((collectStage cfg isDaily o).lookup "dynamodb" =
        dynamoSlot cfg.dynamoEnabled cfg.dynamoTableNames o.dynamo) ∧
      ((collectStage cfg isDaily o).lookup "rds" = flatSlot cfg.rdsEnabled o.rds) := by
    refine ⟨?_, ?_, ?_, ?_, ?_, ?_, ?_, ?_, ?_⟩ <;>
      simp [collectStage, lookup_append_or, lookup_optEntry, or_none_rv]
  obtain ⟨h1, h2, h3, h4, h5, h6, h7, h8, h9⟩ := base
  refine ⟨h1, h2, h3, h4, h5, h6, h7, h8, h9, ?_, ?_, ?_⟩
  · intro m he ho
    rw [h1, he, ho]
    simp [flatSlot]
  · intro he hall
    rw [h8, he]
    have hnil : dynamoSuccesses cfg.dynamoTableNames o.dynamo = [] := by
      unfold dynamoSuccesses
      rw [List.filterMap_eq_nil_iff]
      intro t ht
      rw [hall t ht]
    simp [dynamoSlot, hnil]
  · intro he hall
    rw [h6, he]
    have hnil : logsSuccesses cfg.logGroupNames o.logs = [] := by
      unfold logsSuccesses
      rw [List.filterMap_eq_nil_iff]
      intro g hg
      rw [hall g hg]
    simp [logsSlot, hnil]


/-- Witness for coordinator_failure_isolation: the failing ALB and the
all-failed DynamoDB keys are absent while the successful EC2 entry survives. -/
theorem coordinator_failure_isolation_witness :
    (collectStage cfgW true outcomesW).lookup "ec2" =
      some (ReportValue.metrics [( "CPUUtilization_Average", 1)]) ∧
    (collectStage cfgW true outcomesW).lookup "alb" = none ∧
    (collectStage cfgW true outcomesW).lookup "dynamodb" = none := by
  have h := coordinator_failure_isolation cfgW true outcomesW
  refine ⟨?_, ?_, ?_⟩
  · exact h.2.2.2.2.2.2.2.2.2.1 [( "CPUUtilization_Average", 1)] rfl rfl
  · exact h.2.2.1.trans rfl
  · exact (h.2.2.2.2.2.2.2.2.2.2.1) rfl (by intro t _; rfl)

theorem leadsL_append_self (a b : List Char) : leadsL a (a ++ b) = true := by
  induction a with
  | nil => rfl
  | cons c t ih => simp [leadsL, ih]

theorem leadsL_mono (sub : List Char) :
    ∀ (l b : List Char), leadsL sub l = true → leadsL sub (l ++ b) = true := by
  induction sub with
  | nil => intro l b _; rfl
  | cons s st ih =>
    intro l b h
    cases l with
    | nil => simp [leadsL] at h
    | cons c t =>
      simp only [leadsL, Bool.and_eq_true] at h
      simp only [List.cons_append, leadsL, h.1, Bool.true_and]
      exact ih t b h.2

theorem hasSubL_nil_sub (l : List Char) : hasSubL [] l = true := by
  cases l with
  | nil => rfl
  | cons c t => simp [hasSubL, leadsL]

theorem hasSubL_of_leadsL (sub l : List Char) (h : leadsL sub l = true) :
    hasSubL sub l = true := by
  cases l with
  | nil => exact h
  | cons c t => simp [hasSubL, h]

theorem hasSubL_cons_of (sub : List Char) (c : Char) (t : List Char)
    (h : hasSubL sub t = true) : hasSubL sub (c :: t) = true := by
  simp [hasSubL, h]

theorem hasSubL_append_right (sub a b : List Char) (h : hasSubL sub b = true) :
    hasSubL sub (a ++ b) = true := by
  induction a with
  | nil => exact h
  | cons c t ih =>
    rw [List.cons_append]
    exact hasSubL_cons_of _ _ _ ih

theorem hasSubL_append_left (sub a b : List Char) (h : hasSubL sub a = true) :
    hasSubL sub (a ++ b) = true := by
  induction a with
  | nil =>
    cases sub with
    | nil => exact hasSubL_nil_sub b
    | cons s st => simp [hasSubL, leadsL] at h
  | cons c t ih =>
    simp only [hasSubL] at h
    rcases (by simpa using h :
        leadsL sub (c :: t) = true ∨ hasSubL sub t = true) with hl | hr
    · exact hasSubL_of_leadsL _ _ (leadsL_mono _ _ _ hl)
    · rw [List.cons_append]
      exact hasSubL_cons_of _ _ _ (ih hr)

theorem data_append (x y : String) : (x ++ y).data = x.data ++ y.data := rfl

theorem containsSub_append_right (x y sub : String) (h : containsSub y sub = true) :
    containsSub (x ++ y) sub = true := by
  unfold containsSub at h ⊢
  rw [data_append]
  exact hasSubL_append_right _ _ _ h

theorem containsSub_append_left (x y sub : String) (h : containsSub x sub = true) :
    containsSub (x ++ y) sub = true := by
  unfold containsSub at h ⊢
  rw [data_append]
  exact hasSubL_append_left _ _ _ h

theorem containsSub_self_append (x y : String) : containsSub (x ++ y) x = true := by
  unfold containsSub
  rw [data_append]
  exact hasSubL_of_leadsL _ _ (leadsL_append_self _ _)

theorem containsSub_refl (x : String) : containsSub x x = true := by
  unfold containsSub
  have hx := leadsL_append_self x.data []
  rw [List.append_nil] at hx
  exact hasSubL_of_leadsL _ _ hx

theorem containsSub_joinAll_of_mem (parts : List String) (s : String) (h : s ∈ parts)
    (sub : String) (hs : containsSub s sub = true) :
    containsSub (joinAll parts) sub = true := by
  induction parts with
  | nil => cases h
  | cons p rest ih =>
    rw [joinAll]
    rcases List.mem_cons.mp h with h1 | h1
    · subst h1
      exact containsSub_append_left _ _ _ hs
    · exact containsSub_append_right _ _ _ (ih h1)

theorem buildMessage_contains_ec2 (cfg : ServicesConfig) (tp : TimeParams)
    (endText : String) (am : AggregatedReport) (appIter lamIter : List String)
    (sub : String) (h : containsSub (ec2Section cfg am) sub = true) :
    containsSub (BuildMessage cfg tp endText am appIter lamIter) sub = true := by
  unfold BuildMessage
  apply containsSub_append_left
  apply containsSub_append_left
  apply containsSub_append_left
  apply containsSub_append_left
  apply containsSub_append_left
  apply containsSub_append_left
  apply containsSub_append_left
  apply containsSub_append_left
  apply containsSub_append_left
  apply containsSub_append_right
  exact h

theorem buildMessage_contains_s3 (cfg : ServicesConfig) (tp : TimeParams)
    (endText : String) (am : AggregatedReport) (appIter lamIter : List String)
    (sub : String) (h : containsSub (s3Section cfg tp.isDailyReport am) sub = true) :
    containsSub (BuildMessage cfg tp endText am appIter lamIter) sub = true := by
  unfold BuildMessage
  apply containsSub_append_left
  apply containsSub_append_left
  apply containsSub_append_left
  apply containsSub_append_left
  apply containsSub_append_left
  apply containsSub_append_left
  apply containsSub_append_left
  apply containsSub_append_right
  exact h

theorem buildMessage_contains_alb (cfg : ServicesConfig) (tp : TimeParams)
    (endText : String) (am : AggregatedReport) (appIter lamIter : List String)
    (sub : String) (h : containsSub (albSection cfg am) sub = true) :
    containsSub (BuildMessage cfg tp endText am appIter lamIter) sub = true := by
  unfold BuildMessage
  apply containsSub_append_left
  apply containsSub_append_left
  apply containsSub_append_left
  apply containsSub_append_left
  apply containsSub_append_left
  apply containsSub_append_left
  apply containsSub_append_right
  exact h

theorem buildMessage_contains_cf (cfg : ServicesConfig) (tp : TimeParams)
    (endText : String) (am : AggregatedReport) (appIter lamIter : List String)
    (sub : String) (h : containsSub (cfSection cfg am) sub = true) :
    containsSub (BuildMessage cfg tp endText am appIter lamIter) sub = true := by
  unfold BuildMessage
  apply containsSub_append_left
  apply containsSub_append_left
  apply containsSub_append_left
  apply containsSub_append_left
  apply containsSub_append_left
  apply containsSub_append_right
  exact h

theorem buildMessage_contains_dynamo (cfg : ServicesConfig) (tp : TimeParams)
    (endText : String) (am : AggregatedReport) (appIter lamIter : List String)
    (sub : String) (h : containsSub (dynamoSection cfg am) sub = true) :
    containsSub (BuildMessage cfg tp endText am appIter lamIter) sub = true := by
  unfold BuildMessage
  apply containsSub_append_left
  apply containsSub_append_left
  apply containsSub_append_left
  apply containsSub_append_left
  apply containsSub_append_right
  exact h

theorem buildMessage_contains_rds (cfg : ServicesConfig) (tp : TimeParams)
    (endText : String) (am : AggregatedReport) (appIter lamIter : List String)
    (sub : String) (h : containsSub (rdsSection cfg am) sub = true) :
    containsSub (BuildMessage cfg tp endText am appIter lamIter) sub = true := by
  unfold BuildMessage
  apply containsSub_append_left
  apply containsSub_append_left
  apply containsSub_append_left
  apply containsSub_append_right
  exact h

theorem buildMessage_contains_waf (cfg : ServicesConfig) (tp : TimeParams)
    (endText : String) (am : AggregatedReport) (appIter lamIter : List String)
    (sub : String) (h : containsSub (wafSection cfg am) sub = true) :
    containsSub (BuildMessage cfg tp endText am appIter lamIter) sub = true := by
  unfold BuildMessage
  apply containsSub_append_left
  apply containsSub_append_left
  apply containsSub_append_right
  exact h

theorem buildMessage_contains_logs (cfg : ServicesConfig) (tp : TimeParams)
    (endText : String) (am : AggregatedReport) (appIter lamIter : List String)
    (sub : String) (h : containsSub (logsSection cfg am appIter lamIter) sub = true) :
    containsSub (BuildMessage cfg tp endText am appIter lamIter) sub = true := by
  unfold BuildMessage
  apply containsSub_append_left
  apply containsSub_append_right
  exact h

theorem unescapedAfter_escapeChars (l : List Char) :
    ∀ prev, unescapedAfter prev (escapeChars l) = false := by
  induction l with
  | nil => intro prev; rfl
  | cons c t ih =>
    intro prev
    by_cases hc : c = '_'
    · subst hc
      simp [escapeChars, unescapedAfter, ih]
    · by_cases hs : c = '*'
      · subst hs
        simp [escapeChars, unescapedAfter, hc, ih]
      · have hcb : (c == '_') = false := by simpa using hc
        have hsb : (c == '*') = false := by simpa using hs
        simp [escapeChars, unescapedAfter, hc, hs, hcb, hsb, ih]

theorem unescapedMark_escapeChars (l : List Char) :
    unescapedMark (escapeChars l) = false := by
  cases l with
  | nil => rfl
  | cons c t =>
    by_cases hc : c = '_'
    · subst hc
      simp [escapeChars, unescapedMark, unescapedAfter, unescapedAfter_escapeChars]
    · by_cases hs : c = '*'
      · subst hs
        simp [escapeChars, unescapedMark, unescapedAfter, hc,
          unescapedAfter_escapeChars]
      · have hcb : (c == '_') = false := by simpa using hc
        have hsb : (c == '*') = false := by simpa using hs
        simp [escapeChars, unescapedMark, hc, hs, hcb, hsb,
          unescapedAfter_escapeChars]

theorem perm_eq_of_len_le_one {l m : List String} (h : l.Perm m)
    (hm : m.length ≤ 1) : l = m := by
  cases m with
  | nil => simpa using h.eq_nil
  | cons a t =>
    cases t with
    | nil =>
      have hlen : l.length = 1 := by simpa using h.length_eq
      obtain ⟨b, rfl⟩ := List.length_eq_one.mp hlen
      have hb : b ∈ [a] := h.mem_iff.mp (by simp)
      simp only [List.mem_singleton] at hb
      rw [hb]
    | cons x xs => simp at hm

theorem countLevel_partial (post : List (Except Unit Int)) :
    ∀ (pre : List (Except Unit Int)) (acc : Int),
    (∀ p ∈ pre, p ≠ Except.error ()) →
    countLevel (pre ++ Except.error () :: post) acc =
      acc + (pre.map (fun p =>
        match p with
        | Except.ok n => n
        | Except.error _ => 0)).sum := by
  intro pre
  induction pre with
  | nil => intro acc _; simp [countLevel]
  | cons p rest ih =>
    intro acc hok
    cases p with
    | error e =>
      cases e
      exact absurd rfl (hok (Except.error ()) (by simp))
    | ok n =>
      rw [List.cons_append, countLevel]
      rw [ih (acc + n) (fun q hq => hok q (by simp [hq]))]
      simp [List.map_cons, List.sum_cons]
      omega

theorem wafLoop_congr (cw cw' : CWBackend) (dims : List (String × String))
    (st en p : Int)
    (h : ∀ i, i.dimensions = dims → cw i = cw' i) :
    ∀ (specs : List (String × String)) (acc : MetricSet),
    wafLoop cw dims st en p specs acc = wafLoop cw' dims st en p specs acc := by
  intro specs
  induction specs with
  | nil => intro acc; rfl
  | cons s rest ih =>
    intro acc
    obtain ⟨name, stat⟩ := s
    rw [wafLoop, wafLoop, h (wafInputFor dims st en p name stat) rfl]
    cases cw' (wafInputFor dims st en p name stat) with
    | error e => exact ih acc
    | ok dps => exact ih (mapInsert acc name (wafValue dps))

theorem dynamoLoop_lookup_preserved (cw : CWBackend) (tableName : String)
    (st en p : Int) :
    ∀ (specs : List (String × String)) (acc ms : MetricSet) (k : String),
    dynamoLoop cw tableName st en p specs acc = Except.ok ms →
    (∀ s ∈ specs, (k == s.1) = false) →
    ms.lookup k = acc.lookup k := by
  intro specs
  induction specs with
  | nil =>
    intro acc ms k h _
    rw [dynamoLoop] at h
    cases h
    rfl
  | cons s rest ih =>
    intro acc ms k h hnot
    obtain ⟨name, stat⟩ := s
    rw [dynamoLoop] at h
    cases hq : cw (dynamoInputFor tableName st en p name stat) with
    | error e =>
      rw [hq] at h
      cases h
    | ok dps =>
      rw [hq] at h
      have hk : (k == name) = false := hnot (name, stat) (by simp)
      rw [ih _ _ _ h (fun q hq2 => hnot q (by simp [hq2]))]
      exact lookup_mapInsert_ne _ _ _ _ hk

theorem dynamoLoop_lookup_mem (cw : CWBackend) (tableName : String)
    (st en p : Int) :
    ∀ (specs : List (String × String)) (acc ms : MetricSet) (name stat : String),
    dynamoLoop cw tableName st en p specs acc = Except.ok ms →
    (name, stat) ∈ specs →
    (specs.map Prod.fst).Nodup →
    ∃ dps, cw (dynamoInputFor tableName st en p name stat) = Except.ok dps ∧
      ms.lookup name = some (dynamoValue stat dps) := by
  intro specs
  induction specs with
  | nil =>
    intro acc ms name stat _ hmem _
    cases hmem
  | cons s rest ih =>
    intro acc ms name stat h hmem hnd
    obtain ⟨n2, s2⟩ := s
    rw [List.map_cons] at hnd
    rw [dynamoLoop] at h
    cases hq : cw (dynamoInputFor tableName st en p n2 s2) with
    | error e =>
      rw [hq] at h
      cases h
    | ok dps =>
      rw [hq] at h
      rcases List.mem_cons.mp hmem with heq | hmem2
      · injection heq with h1 h2
        subst h1
        subst h2
        refine ⟨dps, hq, ?_⟩
        have hnot : ∀ s ∈ rest, (name == s.1) = false := by
          intro s hs
          apply beq_eq_false_iff_ne.mpr
          intro hceq
          exact (List.nodup_cons.mp hnd).1 (List.mem_map.mpr ⟨s, hs, hceq.symm⟩)
        rw [dynamoLoop_lookup_preserved cw tableName st en p rest _ ms name h hnot]
        exact lookup_mapInsert_self _ _ _
      · exact ih _ ms name stat h hmem2 (List.nodup_cons.mp hnd).2

theorem cloudFrontLoop_lookup_preserved (cw : CWBackend) (dist : String)
    (st en p : Int) :
    ∀ (specs : List MetricSpec) (acc ms : MetricSet) (k : String),
    cloudFrontLoop cw dist st en p specs acc = Except.ok ms →
    (∀ s ∈ specs, (k == s.name) = false) →
    ms.lookup k = acc.lookup k := by
  intro specs
  induction specs with
  | nil =>
    intro acc ms k h _
    rw [cloudFrontLoop] at h
    cases h
    rfl
  | cons spec rest ih =>
    intro acc ms k h hnot
    rw [cloudFrontLoop] at h
    cases hq : cw (cloudFrontInputFor dist st en p spec.name spec.statistic) with
    | error e =>
      rw [hq] at h
      cases h
    | ok dps =>
      rw [hq] at h
      rw [ih _ _ _ h (fun q hq2 => hnot q (by simp [hq2]))]
      exact lookup_mapInsert_ne _ _ _ _ (hnot spec (by simp))

theorem cloudFrontLoop_lookup_mem (cw : CWBackend) (dist : String)
    (st en p : Int) :
    ∀ (specs : List MetricSpec) (acc ms : MetricSet) (spec : MetricSpec),
    cloudFrontLoop cw dist st en p specs acc = Except.ok ms →
    spec ∈ specs →
    (specs.map MetricSpec.name).Nodup →
    ∃ dps, cw (cloudFrontInputFor dist st en p spec.name spec.statistic) =
        Except.ok dps ∧
      ms.lookup spec.name = some (cfValue spec dps) := by
  intro specs
  induction specs with
  | nil =>
    intro acc ms spec _ hmem _
    cases hmem
  | cons s2 rest ih =>
    intro acc ms spec h hmem hnd
    rw [List.map_cons] at hnd
    rw [cloudFrontLoop] at h
    cases hq : cw (cloudFrontInputFor dist st en p s2.name s2.statistic) with
    | error e =>
      rw [hq] at h
      cases h
    | ok dps =>
      rw [hq] at h
      rcases List.mem_cons.mp hmem with heq | hmem2
      · subst heq
        refine ⟨dps, hq, ?_⟩
        have hnot : ∀ s ∈ rest, (spec.name == s.name) = false := by
          intro s hs
          apply beq_eq_false_iff_ne.mpr
          intro hceq
          exact (List.nodup_cons.mp hnd).1 (List.mem_map.mpr ⟨s, hs, hceq.symm⟩)
        rw [cloudFrontLoop_lookup_preserved cw dist st en p rest _ ms spec.name h hnot]
        exact lookup_mapInsert_self _ _ _
      · exact ih _ ms spec h hmem2 (List.nodup_cons.mp hnd).2

theorem albLoop_lookup_preserved (cw : CWBackend) (lbDim : String)
    (st en p : Int) :
    ∀ (specs : List MetricSpec) (acc ms : MetricSet) (k : String),
    albLoop cw lbDim st en p specs acc = Except.ok ms →
    (∀ s ∈ specs, (k == s.name) = false) →
    ms.lookup k = acc.lookup k := by
  intro specs
  induction specs with
  | nil =>
    intro acc ms k h _
    rw [albLoop] at h
    cases h
    rfl
  | cons spec rest ih =>
    intro acc ms k h hnot
    rw [albLoop] at h
    cases hq : cw (albInputFor lbDim st en p spec) with
    | error e =>
      rw [hq] at h
      cases h
    | ok dps =>
      rw [hq] at h
      rw [ih _ _ _ h (fun q hq2 => hnot q (by simp [hq2]))]
      exact lookup_mapInsert_ne _ _ _ _ (hnot spec (by simp))

theorem albLoop_lookup_mem (cw : CWBackend) (lbDim : String)
    (st en p : Int) :
    ∀ (specs : List MetricSpec) (acc ms : MetricSet) (spec : MetricSpec),
    albLoop cw lbDim st en p specs acc = Except.ok ms →
    spec ∈ specs →
    (specs.map MetricSpec.name).Nodup →
    ∃ dps, cw (albInputFor lbDim st en p spec) = Except.ok dps ∧
      ms.lookup spec.name = some (albValue spec dps) := by
  intro specs
  induction specs with
  | nil =>
    intro acc ms spec _ hmem _
    cases hmem
  | cons s2 rest ih =>
    intro acc ms spec h hmem hnd
    rw [List.map_cons] at hnd
    rw [albLoop] at h
    cases hq : cw (albInputFor lbDim st en p s2) with
    | error e =>
      rw [hq] at h
      cases h
    | ok dps =>
      rw [hq] at h
      rcases List.mem_cons.mp hmem with heq | hmem2
      · subst heq
        refine ⟨dps, hq, ?_⟩
        have hnot : ∀ s ∈ rest, (spec.name == s.name) = false := by
          intro s hs
          apply beq_eq_false_iff_ne.mpr
          intro hceq
          exact (List.nodup_cons.mp hnd).1 (List.mem_map.mpr ⟨s, hs, hceq.symm⟩)
        rw [albLoop_lookup_preserved cw lbDim st en p rest _ ms spec.name h hnot]
        exact lookup_mapInsert_self _ _ _
      · exact ih _ ms spec h hmem2 (List.nodup_cons.mp hnd).2

theorem rdsInstanceLoop_lookup_preserved (cw : CWBackend) (iid : String)
    (st en p : Int) :
    ∀ (specs : List MetricSpec) (acc : MetricSet) (k : String),
    (∀ s ∈ specs, (k == rdsInstanceKey s) = false) →
    (rdsInstanceLoop cw iid st en p specs acc).lookup k = acc.lookup k := by
  intro specs
  induction specs with
  | nil =>
    intro acc k _
    rfl
  | cons spec rest ih =>
    intro acc k hnot
    rw [rdsInstanceLoop]
    cases hq : cw (rdsInstanceInputFor iid st en p spec) with
    | error e => exact ih acc k (fun s hs => hnot s (by simp [hs]))
    | ok dps =>
      exact (ih (mapInsert acc (rdsInstanceKey spec) (rdsInstanceValue spec dps)) k
        (fun s hs => hnot s (by simp [hs]))).trans
        (lookup_mapInsert_ne acc (rdsInstanceKey spec) k (rdsInstanceValue spec dps)
          (hnot spec (by simp)))

theorem rdsInstanceLoop_lookup_mem (cw : CWBackend) (iid : String)
    (st en p : Int) :
    ∀ (specs : List MetricSpec) (acc : MetricSet) (spec : MetricSpec)
      (dps : List Datapoint),
    spec ∈ specs →
    (specs.map rdsInstanceKey).Nodup →
    cw (rdsInstanceInputFor iid st en p spec) = Except.ok dps →
    (rdsInstanceLoop cw iid st en p specs acc).lookup (rdsInstanceKey spec) =
      some (rdsInstanceValue spec dps) := by
  intro specs
  induction specs with
  | nil =>
    intro acc spec dps hmem _ _
    cases hmem
  | cons s2 rest ih =>
    intro acc spec dps hmem hnd hq
    rw [List.map_cons] at hnd
    rcases List.mem_cons.mp hmem with heq | hmem2
    · subst heq
      rw [rdsInstanceLoop, hq]
      have hnot : ∀ s ∈ rest, (rdsInstanceKey spec == rdsInstanceKey s) = false := by
        intro s hs
        apply beq_eq_false_iff_ne.mpr
        intro hceq
        exact (List.nodup_cons.mp hnd).1 (List.mem_map.mpr ⟨s, hs, hceq.symm⟩)
      exact (rdsInstanceLoop_lookup_preserved cw iid st en p rest
          (mapInsert acc (rdsInstanceKey spec) (rdsInstanceValue spec dps))
          (rdsInstanceKey spec) hnot).trans
        (lookup_mapInsert_self acc (rdsInstanceKey spec) (rdsInstanceValue spec dps))
    · rw [rdsInstanceLoop]
      cases hq2 : cw (rdsInstanceInputFor iid st en p s2) with
      | error e => exact ih acc spec dps hmem2 (List.nodup_cons.mp hnd).2 hq
      | ok d2 =>
        exact ih (mapInsert acc (rdsInstanceKey s2) (rdsInstanceValue s2 d2))
          spec dps hmem2 (List.nodup_cons.mp hnd).2 hq

/-- C9 counterexample: when the error-level search fails on the second page
after a first page of 3 events, CWLogs returns success with the partial count
3 recorded for that level, not the zero count the claim states. -/
theorem cwLogs_zero_count_counterexample :
    CWLogs (fun level => if level == "error" then [Except.ok 3, Except.error ()]
      else [Except.ok 1]) "api-log" =
      Except.ok { error := 3, warn := 1, info := 1 } ∧ (3 : Int) ≠ 0 := by
  constructor
  · rfl
  · decide

/-- C9 (amended): when the filtered search for the error level fails at some
page, CWLogs still returns successfully and records for that level the count
of events on the pages retrieved before the failure (zero when the first page
fails), and the other levels' counts are computed from their own pages
alone. -/
theorem cwLogs_search_failure_policy (pagesFor : String → List (Except Unit Int))
    (g : String) (pre post : List (Except Unit Int))
    (hpre : ∀ p ∈ pre, p ≠ Except.error ())
    (herr : pagesFor "error" = pre ++ Except.error () :: post) :
    CWLogs pagesFor g =
      Except.ok
        { error := (pre.map (fun p =>
            match p with
            | Except.ok n => n
            | Except.error _ => 0)).sum,
          warn := countLevel (pagesFor "warn") 0,
          info := countLevel (pagesFor "info") 0 } := by
  unfold CWLogs
  rw [herr, countLevel_partial post pre 0 hpre]
  norm_num

/-- Witness for cwLogs_search_failure_policy: first error page holds 5 events,
the second fails, the third is never read; warn and info pages count 2. -/
theorem cwLogs_search_failure_policy_witness :
    CWLogs (fun level => if level == "error" then
        [Except.ok 5, Except.error (), Except.ok 7] else [Except.ok 2]) "api-log" =
      Except.ok { error := 5, warn := 2, info := 2 } := by
  have h := cwLogs_search_failure_policy
      (fun level => if level == "error" then
        [Except.ok 5, Except.error (), Except.ok 7] else [Except.ok 2])
      "api-log" [Except.ok 5] [Except.ok 7]
      (by
        intro p hp
        simp only [List.mem_singleton] at hp
        subst hp
        simp)
      (by rfl)
  rw [h]
  rfl

/-- C10: S3Metrics returns a nil error for every backend behaviour, always
carries the BucketSizeMB key (holding the summed storage-type total converted
to MB), and when every query fails or returns no datapoints the result is
exactly the zero-valued map. -/
theorem s3Metrics_never_fails (cw : CWBackend) (bucket : String) (st en : Int) :
    (∃ ms, S3Metrics cw bucket st en = Except.ok ms ∧
      ms.lookup "BucketSizeMB" =
        some (s3TotalSize cw bucket st en / (1024 * 1024))) ∧
    ((∀ i, cw i = Except.error () ∨ cw i = Except.ok []) →
      S3Metrics cw bucket st en =
        Except.ok [( "BucketSizeMB", 0), ( "NumberOfObjects", 0)]) := by
  constructor
  · cases hq : cw (s3ObjectsInput bucket st en) with
    | error e =>
      refine ⟨mapInsert (mapInsert []
          "BucketSizeMB" (s3TotalSize cw bucket st en / (1024 * 1024)))
          "NumberOfObjects" 0, ?_, ?_⟩
      · unfold S3Metrics
        rw [hq]
      · rw [lookup_mapInsert_ne _ _ _ _ (by decide), lookup_mapInsert_self]
    | ok dps =>
      cases dps with
      | nil =>
        refine ⟨mapInsert (mapInsert []
            "BucketSizeMB" (s3TotalSize cw bucket st en / (1024 * 1024)))
            "NumberOfObjects" 0, ?_, ?_⟩
        · unfold S3Metrics
          rw [hq]
        · rw [lookup_mapInsert_ne _ _ _ _ (by decide), lookup_mapInsert_self]
      | cons d t =>
        refine ⟨mapInsert (mapInsert []
            "BucketSizeMB" (s3TotalSize cw bucket st en / (1024 * 1024)))
            "NumberOfObjects" ((latestDp d (d :: t)).average), ?_, ?_⟩
        · unfold S3Metrics
          rw [hq]
        · rw [lookup_mapInsert_ne _ _ _ _ (by decide), lookup_mapInsert_self]
  · intro hall
    have hz : s3TotalSize cw bucket st en = 0 := by
      have step : ∀ (types : List String) (acc : Rat),
          types.foldl (fun total storageType =>
            match cw (s3SizeInputFor bucket storageType st en) with
            | Except.error _ => total
            | Except.ok [] => total
            | Except.ok (d :: t) => total + (latestDp d (d :: t)).average) acc = acc := by
        intro types
        induction types with
        | nil => intro acc; rfl
        | cons ty rest ih =>
          intro acc
          rw [List.foldl_cons]
          rcases hall (s3SizeInputFor bucket ty st en) with hh | hh <;>
            rw [hh] <;> exact ih acc
      exact step s3StorageTypes 0
    rcases hall (s3ObjectsInput bucket st en) with hh | hh <;>
    · unfold S3Metrics
      rw [hh, hz]
      simp [mapInsert]

/-- Witness for s3Metrics_never_fails: a backend failing every query still
yields a successful all-zero result. -/
theorem s3Metrics_never_fails_witness :
    S3Metrics (fun _ => Except.error ()) "logs-bucket" 0 3600 =
      Except.ok [( "BucketSizeMB", 0), ( "NumberOfObjects", 0)] :=
  (s3Metrics_never_fails (fun _ => Except.error ()) "logs-bucket" 0 3600).2
    (fun _ => Or.inl rfl)

/-- C3 counterexample: with two datapoints whose later-timestamped value is 7,
EC2Metrics records 5, the value of the first response element, not the value 7
of the datapoint latest by timestamp. -/
theorem ec2_latest_datapoint_counterexample :
    EC2Metrics cwTwoPoints "i-1" 0 3600 = Except.ok ec2TwoPointsResult ∧
    ec2TwoPointsResult.lookup "CPUUtilization_Average" = some 5 ∧
    (latestDp dpEarly [dpEarly, dpLate]).average = 7 ∧ ((5 : Rat) ≠ 7) := by
  refine ⟨?_, ?_, ?_, ?_⟩
  · with_unfolding_all rfl
  · rfl
  · with_unfolding_all rfl
  · decide

/-- C3 (amended): the DynamoDB and S3 collectors select the datapoint latest
by timestamp; the EC2, ALB, CloudWatch-Agent, RDS and WAF collectors record
Datapoints[0], the first element of the response in whatever order it
arrived; the CloudFront collector averages all Average-statistic datapoints
and sums all Sum-statistic datapoints. -/
theorem multi_datapoint_selection_policy (d : Datapoint) (t : List Datapoint)
    (inst tbl dist bucket suffix iid : String) (dims : List (String × String))
    (lmb : ListBackend) (st en : Int) (n : Int) :
    exceptLookup (DynamoDBMetrics (fun _ => Except.ok (d :: t))
        (Except.ok (some { billingMode := some "PROVISIONED", itemCount := some n }))
        tbl st en) "SystemErrors" = some (latestDp d (d :: t)).sum ∧
    exceptLookup (DynamoDBMetrics (fun _ => Except.ok (d :: t))
        (Except.ok (some { billingMode := some "PROVISIONED", itemCount := some n }))
        tbl st en) "SuccessfulRequestLatency" = some (latestDp d (d :: t)).average ∧
    exceptLookup (S3Metrics (fun _ => Except.ok (d :: t)) bucket st en)
        "NumberOfObjects" = some (latestDp d (d :: t)).average ∧
    exceptLookup (EC2Metrics (fun _ => Except.ok (d :: t)) inst st en)
        "CPUUtilization_Average" = some d.average ∧
    exceptLookup (EC2Metrics (fun _ => Except.ok (d :: t)) inst st en)
        "StatusCheckFailed" = some d.sum ∧
    exceptLookup (ALBMetrics (fun _ => Except.ok (d :: t)) lmb
        ( "app/" ++ suffix) st en) "RequestCount" = some d.sum ∧
    exceptLookup (ALBMetrics (fun _ => Except.ok (d :: t)) lmb
        ( "app/" ++ suffix) st en) "TargetResponseTime" = some d.average ∧
    exceptLookup (CWAgentMetrics (fun _ => Except.ok (d :: t))
        (fun _ => Except.ok []) inst st en) "mem_used_percent_Maximum" =
      some d.maximum ∧
    exceptLookup (CWAgentMetrics (fun _ => Except.ok (d :: t))
        (fun _ => Except.ok []) inst st en) "disk_used_percent" = some d.average ∧
    exceptLookup (RDSMetrics (fun _ => Except.ok (d :: t)) "" ( "db-" ++ iid) st en)
        "Instance_CPUUtilization_Average" = some d.average ∧
    (wafLoop (fun _ => Except.ok (d :: t)) dims st en (periodFor st en)
        wafMetricsTable []).lookup "AllowedRequests" = some d.sum ∧
    exceptLookup (CloudFrontMetrics (fun _ => Except.ok (d :: t)) dist st en)
        "Requests" = some ((d :: t).map (fun dp => dp.sum)).sum ∧
    exceptLookup (CloudFrontMetrics (fun _ => Except.ok (d :: t)) dist st en)
        "4xxErrorRate" =
      some (((d :: t).map (fun dp => dp.average)).sum / (((d :: t).length : Nat) : Rat)) := by
  have hiid : (( "db-" ++ iid) == "") = false := by
    apply beq_eq_false_iff_ne.mpr
    intro hcon
    have hd : "db-".data ++ iid.data = [] := congrArg String.data hcon
    rcases List.append_eq_nil.mp hd with ⟨h1, _⟩
    exact absurd h1 (by decide)
  refine ⟨?_, ?_, ?_, ?_, ?_, ?_, ?_, ?_, ?_, ?_, ?_, ?_, ?_⟩
  · simp [DynamoDBMetrics, dynamoLoop, dynamoBaseTable, dynamoProvisionedExtra,
      dynamoValue, mapInsert, exceptLookup, List.lookup]
  · simp [DynamoDBMetrics, dynamoLoop, dynamoBaseTable, dynamoProvisionedExtra,
      dynamoValue, mapInsert, exceptLookup, List.lookup]
  · simp [S3Metrics, mapInsert, exceptLookup, List.lookup]
  · simp [EC2Metrics, ec2Loop, ec2MetricsTable, ec2Key, ec2Value, mapInsert,
      exceptLookup, List.lookup]
  · simp [EC2Metrics, ec2Loop, ec2MetricsTable, ec2Key, ec2Value, mapInsert,
      exceptLookup, List.lookup]
  · simp [ALBMetrics, leadsL, albLoop, albMetricsTable, albValue, mapInsert,
      exceptLookup, List.lookup]
  · simp [ALBMetrics, leadsL, albLoop, albMetricsTable, albValue, mapInsert,
      exceptLookup, List.lookup]
  · simp [CWAgentMetrics, cwaScanSeries, cwaMemValue, cwaDiskValue, mapInsert,
      exceptLookup, List.lookup]
  · simp [CWAgentMetrics, cwaScanSeries, cwaMemValue, cwaDiskValue, mapInsert,
      exceptLookup, List.lookup]
  · simp [RDSMetrics, hiid, rdsInstanceLoop, rdsInstanceTable, rdsInstanceKey,
      rdsInstanceValue, mapInsert, exceptLookup, List.lookup]
  · simp [wafLoop, wafMetricsTable, wafValue, mapInsert, List.lookup]
  · simp [CloudFrontMetrics, cloudFrontLoop, cloudFrontMetricsTable, cfValue,
      mapInsert, exceptLookup, List.lookup]
  · simp [CloudFrontMetrics, cloudFrontLoop, cloudFrontMetricsTable, cfValue,
      mapInsert, exceptLookup, List.lookup]

/-- C4: for a table whose DescribeTable reports pay-per-request billing, the
collector leaves RequestCount and SuccessfulRequestLatency absent (not
zeroed), takes ItemCount from the descriptive lookup, and the assembler
renders the N/A text for requests and latency while still rendering the item
count, throttle, capacity and error lines, inside the report whenever the
table's entry is present. -/
theorem dynamoDB_on_demand_policy (cw : CWBackend) (tbl : String) (st en : Int)
    (n : Int) (ms : MetricSet)
    (hms : DynamoDBMetrics cw
      (Except.ok (some { billingMode := some "PAY_PER_REQUEST", itemCount := some n }))
      tbl st en = Except.ok ms) :
    ms.lookup "RequestCount" = none ∧
    ms.lookup "SuccessfulRequestLatency" = none ∧
    ms.lookup "ItemCount" = some (n : Rat) ∧
    ms.lookup "BillingMode" = some 1 ∧
    dynamoTableBlock tbl ms =
      "*DynamoDB* " ++ escapeMarkdown tbl ++ "\n" ++
      ( "Total Requests: N/A (On-Demand)\n" ++ "Latency: N/A\n") ++
      "Items: " ++ formatFixed (n : Rat) 0 ++ "\n" ++
      "Read Throttles: " ++ fmtF ms "ReadThrottleEvents" 0 ++ "\n" ++
      "Write Throttles: " ++ fmtF ms "WriteThrottleEvents" 0 ++ "\n" ++
      "Read Capacity: " ++ fmtF ms "ConsumedReadCapacityUnits" 0 ++ " units\n" ++
      "Write Capacity: " ++ fmtF ms "ConsumedWriteCapacityUnits" 0 ++ " units\n" ++
      "DB Errors: " ++
        formatFixed (lookupF ms "UserErrors" + lookupF ms "SystemErrors") 0 ++ "\n" ++
      "\n" ∧
    (∀ cfg tp endText am dm appIter lamIter,
      cfg.dynamoEnabled = true →
      am.lookup "dynamodb" = some (ReportValue.tables dm) →
      tbl ∈ cfg.dynamoTableNames →
      dm.lookup tbl = some ms →
      containsSub (BuildMessage cfg tp endText am appIter lamIter)
        (dynamoTableBlock tbl ms) = true) := by
  have hred : dynamoLoop cw tbl st en (periodFor st en) dynamoBaseTable
      (mapInsert (mapInsert [] "BillingMode" 1) "ItemCount" (n : Rat)) =
      Except.ok ms := by
    unfold DynamoDBMetrics at hms
    simpa using hms
  have hreq : ms.lookup "RequestCount" = none := by
    rw [dynamoLoop_lookup_preserved cw tbl st en (periodFor st en)
      dynamoBaseTable _ ms "RequestCount" hred (by decide)]
    rw [lookup_mapInsert_ne _ _ _ _ (by decide),
      lookup_mapInsert_ne _ _ _ _ (by decide)]
    rfl
  have hlat : ms.lookup "SuccessfulRequestLatency" = none := by
    rw [dynamoLoop_lookup_preserved cw tbl st en (periodFor st en)
      dynamoBaseTable _ ms "SuccessfulRequestLatency" hred (by decide)]
    rw [lookup_mapInsert_ne _ _ _ _ (by decide),
      lookup_mapInsert_ne _ _ _ _ (by decide)]
    rfl
  have hitem : ms.lookup "ItemCount" = some (n : Rat) := by
    rw [dynamoLoop_lookup_preserved cw tbl st en (periodFor st en)
      dynamoBaseTable _ ms "ItemCount" hred (by decide)]
    rw [lookup_mapInsert_self]
  have hbm : ms.lookup "BillingMode" = some 1 := by
    rw [dynamoLoop_lookup_preserved cw tbl st en (periodFor st en)
      dynamoBaseTable _ ms "BillingMode" hred (by decide)]
    rw [lookup_mapInsert_ne _ _ _ _ (by decide), lookup_mapInsert_self]
  have hbmF : lookupF ms "BillingMode" = 1 := by
    rw [lookupF, hbm]
    rfl
  have hitemF : lookupF ms "ItemCount" = (n : Rat) := by
    rw [lookupF, hitem]
    rfl
  have hblock : dynamoTableBlock tbl ms =
      "*DynamoDB* " ++ escapeMarkdown tbl ++ "\n" ++
      ( "Total Requests: N/A (On-Demand)\n" ++ "Latency: N/A\n") ++
      "Items: " ++ formatFixed (n : Rat) 0 ++ "\n" ++
      "Read Throttles: " ++ fmtF ms "ReadThrottleEvents" 0 ++ "\n" ++
      "Write Throttles: " ++ fmtF ms "WriteThrottleEvents" 0 ++ "\n" ++
      "Read Capacity: " ++ fmtF ms "ConsumedReadCapacityUnits" 0 ++ " units\n" ++
      "Write Capacity: " ++ fmtF ms "ConsumedWriteCapacityUnits" 0 ++ " units\n" ++
      "DB Errors: " ++
        formatFixed (lookupF ms "UserErrors" + lookupF ms "SystemErrors") 0 ++ "\n" ++
      "\n" := by
    unfold dynamoTableBlock
    rw [if_neg (by rw [hbmF]; norm_num)]
    rw [show fmtF ms "ItemCount" 0 = formatFixed (n : Rat) 0 by rw [fmtF, hitemF]]
  refine ⟨hreq, hlat, hitem, hbm, hblock, ?_⟩
  intro cfg tp endText am dm appIter lamIter hen ham htbl hdm
  apply buildMessage_contains_dynamo
  unfold dynamoSection
  rw [if_pos hen, ham]
  apply containsSub_joinAll_of_mem _ (dynamoTableBlock tbl ms) ?_ _ (containsSub_refl _)
  apply List.mem_map.mpr
  refine ⟨tbl, htbl, ?_⟩
  rw [hdm]

/-- Witness for dynamoDB_on_demand_policy on a concrete on-demand table of 42
items with an empty-response backend. -/
theorem dynamoDB_on_demand_policy_witness :
    msOnDemandW.lookup "RequestCount" = none ∧
    containsSub (BuildMessage cfgD (⟨ 0, 3600, false⟩ : TimeParams) "t" amD [] [])
      (dynamoTableBlock "users" msOnDemandW) = true := by
  have h := dynamoDB_on_demand_policy cwAllEmpty "users" 0 3600 42 msOnDemandW
    (by with_unfolding_all rfl)
  refine ⟨h.1, ?_⟩
  exact h.2.2.2.2.2 cfgD (⟨ 0, 3600, false⟩ : TimeParams)
    "t" amD [( "users", msOnDemandW)] [] [] rfl rfl (by simp [cfgD]) rfl

/-- C5: under CLOUDFRONT scope WAFMetrics never fails (a resolution failure is
tolerated) and its result depends only on queries dimensioned by the web ACL
name alone; under any other scope (defaulting to REGIONAL) the collector fails
exactly when the load-balancer resolution fails, resolution fails when zero or
multiple associated load balancers are found, and on success the result
depends only on queries dimensioned by the resolved resource. -/
theorem waf_scope_policy (wb : WafBackend) (cw : CWBackend)
    (webACLId webACLName scopeStr : String) (st en : Int) :
    (scopeStr = "CLOUDFRONT" →
      ∃ ms, WAFMetrics wb cw webACLId webACLName scopeStr st en = Except.ok ms) ∧
    (scopeStr = "CLOUDFRONT" → ∀ cw',
      (∀ i, i.dimensions = [( "WebACL", webACLName)] → cw i = cw' i) →
      WAFMetrics wb cw webACLId webACLName scopeStr st en =
        WAFMetrics wb cw' webACLId webACLName scopeStr st en) ∧
    (scopeStr ≠ "CLOUDFRONT" →
      ((∃ e, WAFMetrics wb cw webACLId webACLName scopeStr st en = Except.error e) ↔
       (∃ e, getALBARNFromWAF wb webACLName webACLId WafScope.regional =
         Except.error e))) ∧
    (∀ arn, wb.getWebACL = Except.ok arn → wb.listResources arn = Except.ok [] →
      ∃ e, getALBARNFromWAF wb webACLName webACLId WafScope.regional =
        Except.error e) ∧
    (∀ arn a b rest, wb.getWebACL = Except.ok arn →
      wb.listResources arn = Except.ok (a :: b :: rest) →
      ∃ e, getALBARNFromWAF wb webACLName webACLId WafScope.regional =
        Except.error e) ∧
    (scopeStr ≠ "CLOUDFRONT" → ∀ albARN cw',
      getALBARNFromWAF wb webACLName webACLId WafScope.regional = Except.ok albARN →
      (∀ i, i.dimensions = [( "Resource", albARN), ( "ResourceType", "ALB")] →
        cw i = cw' i) →
      WAFMetrics wb cw webACLId webACLName scopeStr st en =
        WAFMetrics wb cw' webACLId webACLName scopeStr st en) := by
  refine ⟨?_, ?_, ?_, ?_, ?_, ?_⟩
  · intro h
    subst h
    refine ⟨wafLoop cw [( "WebACL", webACLName)] st en (periodFor st en)
      wafMetricsTable [], ?_⟩
    cases hw : wb.getWebACL with
    | error e =>
      unfold WAFMetrics getALBARNFromWAF
      rw [hw]
      with_unfolding_all rfl
    | ok arn =>
      unfold WAFMetrics getALBARNFromWAF
      rw [hw]
      with_unfolding_all rfl
  · intro h cw' hagree
    subst h
    have hcong := wafLoop_congr cw cw' [( "WebACL", webACLName)] st en
      (periodFor st en) hagree wafMetricsTable []
    cases hw : wb.getWebACL with
    | error e =>
      unfold WAFMetrics getALBARNFromWAF
      rw [hw]
      exact congrArg Except.ok hcong
    | ok arn =>
      unfold WAFMetrics getALBARNFromWAF
      rw [hw]
      exact congrArg Except.ok hcong
  · intro h
    have hb : (scopeStr == "CLOUDFRONT") = false := by simpa using h
    constructor
    · rintro ⟨e, he⟩
      cases hres : getALBARNFromWAF wb webACLName webACLId WafScope.regional with
      | error e2 => exact ⟨e2, rfl⟩
      | ok a =>
        exfalso
        unfold WAFMetrics at he
        rw [hb] at he
        simp only [Bool.false_eq_true, if_false] at he
        rw [hres] at he
        cases he
    · rintro ⟨e, hres⟩
      refine ⟨ "failed to get ALB ARN from WAF: " ++ e, ?_⟩
      unfold WAFMetrics
      rw [hb]
      simp only [Bool.false_eq_true, if_false]
      rw [hres]
  · intro arn hw hl
    refine ⟨ "no ALB resources associated with WAF", ?_⟩
    unfold getALBARNFromWAF
    simp only [hw]
    rw [if_neg (by decide : ¬ (WafScope.regional = WafScope.cloudfront))]
    rw [hl]
  · intro arn a b rest hw hl
    refine ⟨ "multiple ALB resources found, expected only one", ?_⟩
    unfold getALBARNFromWAF
    simp only [hw]
    rw [if_neg (by decide : ¬ (WafScope.regional = WafScope.cloudfront))]
    rw [hl]
  · intro h albARN cw' hres hagree
    have hb : (scopeStr == "CLOUDFRONT") = false := by simpa using h
    have hcong := wafLoop_congr cw cw'
      [( "Resource", albARN), ( "ResourceType", "ALB")] st en
      (periodFor st en) hagree wafMetricsTable []
    unfold WAFMetrics
    rw [hb]
    simp only [Bool.false_eq_true, if_false]
    rw [hres]
    exact congrArg Except.ok hcong

/-- Witness for waf_scope_policy: a CLOUDFRONT-scope collector succeeds even
when GetWebACL itself fails, and a regional resolution with zero associated
load balancers fails. -/
theorem waf_scope_policy_witness :
    (∃ ms, WAFMetrics (⟨Except.error (), fun _ => Except.error ()⟩ : WafBackend)
      cwAllEmpty "acl-id" "acl-name" "CLOUDFRONT" 0 3600 = Except.ok ms) ∧
    (∃ e, getALBARNFromWAF (⟨Except.ok "web-arn", fun _ => Except.ok []⟩ : WafBackend)
      "acl-name" "acl-id" WafScope.regional = Except.error e) := by
  constructor
  · exact (waf_scope_policy ⟨Except.error (), fun _ => Except.error ()⟩ cwAllEmpty
      "acl-id" "acl-name" "CLOUDFRONT" 0 3600).1 rfl
  · exact (waf_scope_policy ⟨Except.ok "web-arn", fun _ => Except.ok []⟩ cwAllEmpty
      "acl-id" "acl-name" "REGIONAL" 0 3600).2.2.2.1 "web-arn" rfl rfl

/-- C6 counterexample: the WAF collector returns successfully while leaving
the AllowedRequests key absent, because that query failed and was skipped. -/
theorem waf_absent_metric_counterexample :
    WAFMetrics (⟨Except.ok "web-arn", fun _ => Except.ok [ "alb-arn"]⟩ : WafBackend)
      cwErrAllowed "acl-id" "acl-name" "CLOUDFRONT" 0 3600 =
      Except.ok [( "BlockedRequests", 0)] ∧
    ([( "BlockedRequests", (0 : Rat))] : MetricSet).lookup "AllowedRequests" = none := by
  constructor
  · with_unfolding_all rfl
  · rfl

/-- C6 (amended): for every collector that returns successfully, every metric
of its fixed table is present with 0.0 recorded whenever its query returned
an empty datapoint set — directly for EC2, S3, ALB, CloudFront,
CloudWatch-Agent and the DynamoDB base table — except that the WAF and RDS
collectors skip a failed query, leaving its key absent while still returning
successfully (the counterexample above shows the WAF case, and the last
conjunct the RDS case), and RDSMetrics never fails once an identifier is
configured. -/
theorem collectors_zero_default_policy (cw : CWBackend) (wb : WafBackend)
    (lm : ListBackend) (inst bucket webACLId webACLName : String) (st en : Int) :
    (∀ ms, EC2Metrics cw inst st en = Except.ok ms →
      (ms.lookup "CPUUtilization_Average").isSome = true ∧
      (ms.lookup "CPUUtilization_Maximum").isSome = true ∧
      (ms.lookup "StatusCheckFailed").isSome = true ∧
      (ms.lookup "NetworkIn").isSome = true ∧
      (ms.lookup "NetworkOut").isSome = true ∧
      (cw (ec2InputFor inst st en (periodFor st en) "NetworkIn" "Sum") =
          Except.ok [] → ms.lookup "NetworkIn" = some 0) ∧
      (cw (ec2InputFor inst st en (periodFor st en) "CPUUtilization" "Average") =
          Except.ok [] → ms.lookup "CPUUtilization_Average" = some 0)) ∧
    (∀ ms, S3Metrics cw bucket st en = Except.ok ms →
      (ms.lookup "BucketSizeMB").isSome = true ∧
      (ms.lookup "NumberOfObjects").isSome = true ∧
      (cw (s3ObjectsInput bucket st en) = Except.ok [] →
        ms.lookup "NumberOfObjects" = some 0)) ∧
    (∀ dims, (∀ i, cw i ≠ Except.error ()) →
      ((wafLoop cw dims st en (periodFor st en) wafMetricsTable []).lookup
        "AllowedRequests").isSome = true ∧
      ((wafLoop cw dims st en (periodFor st en) wafMetricsTable []).lookup
        "BlockedRequests").isSome = true ∧
      (cw (wafInputFor dims st en (periodFor st en) "AllowedRequests" "Sum") =
          Except.ok [] →
        (wafLoop cw dims st en (periodFor st en) wafMetricsTable []).lookup
          "AllowedRequests" = some 0)) ∧
    (∀ scopeStr ms, WAFMetrics wb cw webACLId webACLName scopeStr st en =
        Except.ok ms →
      ∃ dims, ms = wafLoop cw dims st en (periodFor st en) wafMetricsTable []) ∧
    (∀ albName ms, ALBMetrics cw lm albName st en = Except.ok ms →
      ∃ lbDim, ∀ spec ∈ albMetricsTable,
        ∃ dps, cw (albInputFor lbDim st en (periodFor st en) spec) =
            Except.ok dps ∧
          ms.lookup spec.name = some (albValue spec dps) ∧
          (dps = [] → ms.lookup spec.name = some 0)) ∧
    (∀ dist ms, CloudFrontMetrics cw dist st en = Except.ok ms →
      ∀ spec ∈ cloudFrontMetricsTable,
        ∃ dps, cw (cloudFrontInputFor dist st en (periodFor st en) spec.name
            spec.statistic) = Except.ok dps ∧
          ms.lookup spec.name = some (cfValue spec dps) ∧
          (dps = [] → ms.lookup spec.name = some 0)) ∧
    (∀ ms, CWAgentMetrics cw lm inst st en = Except.ok ms →
      (ms.lookup "mem_used_percent_Average").isSome = true ∧
      (ms.lookup "mem_used_percent_Maximum").isSome = true ∧
      (ms.lookup "disk_used_percent").isSome = true ∧
      (cw (cwaMemInput inst st en (periodFor st en) "Average") = Except.ok [] →
        ms.lookup "mem_used_percent_Average" = some 0) ∧
      (cw (cwaMemInput inst st en (periodFor st en) "Maximum") = Except.ok [] →
        ms.lookup "mem_used_percent_Maximum" = some 0) ∧
      (∀ series, lm (cwaDiskListInput inst) = Except.ok series →
        cw (cwaDiskInput inst (cwaScanSeries inst series "" "").1
            (cwaScanSeries inst series "" "").2 st en (periodFor st en)) =
          Except.ok [] →
        ms.lookup "disk_used_percent" = some 0)) ∧
    (∀ dsc tbl ms, DynamoDBMetrics cw dsc tbl st en = Except.ok ms →
      ∀ name stat, (name, stat) ∈ dynamoBaseTable →
        ∃ dps, cw (dynamoInputFor tbl st en (periodFor st en) name stat) =
            Except.ok dps ∧
          ms.lookup name = some (dynamoValue stat dps) ∧
          (dps = [] → ms.lookup name = some 0)) ∧
    (∀ cid iid, ((cid == "") && (iid == "")) = false →
      ∃ ms, RDSMetrics cw cid iid st en = Except.ok ms) ∧
    (∀ iid ms, RDSMetrics cw "" iid st en = Except.ok ms →
      (∀ spec ∈ rdsInstanceTable, ∀ dps,
        cw (rdsInstanceInputFor iid st en (periodFor st en) spec) =
            Except.ok dps →
          ms.lookup (rdsInstanceKey spec) = some (rdsInstanceValue spec dps) ∧
          (dps = [] → ms.lookup (rdsInstanceKey spec) = some 0)) ∧
      (cw (rdsInstanceInputFor iid st en (periodFor st en)
          (⟨ "CPUUtilization", "Average", "%"⟩ : MetricSpec)) = Except.error () →
        ms.lookup "Instance_CPUUtilization_Average" = none)) := by
  refine ⟨?_, ?_, ?_, ?_, ?_, ?_, ?_, ?_, ?_, ?_⟩
  · intro ms hms
    cases h1 : cw (ec2InputFor inst st en (periodFor st en) "CPUUtilization" "Average") with
    | error e => simp [EC2Metrics, ec2MetricsTable, ec2Loop, h1] at hms
    | ok d1 =>
    cases h2 : cw (ec2InputFor inst st en (periodFor st en) "CPUUtilization" "Maximum") with
    | error e => simp [EC2Metrics, ec2MetricsTable, ec2Loop, h1, h2] at hms
    | ok d2 =>
    cases h3 : cw (ec2InputFor inst st en (periodFor st en) "StatusCheckFailed" "Sum") with
    | error e => simp [EC2Metrics, ec2MetricsTable, ec2Loop, h1, h2, h3] at hms
    | ok d3 =>
    cases h4 : cw (ec2InputFor inst st en (periodFor st en) "NetworkIn" "Sum") with
    | error e => simp [EC2Metrics, ec2MetricsTable, ec2Loop, h1, h2, h3, h4] at hms
    | ok d4 =>
    cases h5 : cw (ec2InputFor inst st en (periodFor st en) "NetworkOut" "Sum") with
    | error e => simp [EC2Metrics, ec2MetricsTable, ec2Loop, h1, h2, h3, h4, h5] at hms
    | ok d5 =>
    simp only [EC2Metrics, ec2MetricsTable, ec2Loop, h1, h2, h3, h4, h5,
      Except.ok.injEq] at hms
    subst hms
    refine ⟨?_, ?_, ?_, ?_, ?_, ?_, ?_⟩
    · simp [mapInsert, ec2Key, List.lookup]
    · simp [mapInsert, ec2Key, List.lookup]
    · simp [mapInsert, ec2Key, List.lookup]
    · simp [mapInsert, ec2Key, List.lookup]
    · simp [mapInsert, ec2Key, List.lookup]
    · intro hq
      simp only [Except.ok.injEq] at hq
      subst hq
      simp [mapInsert, ec2Key, ec2Value, List.lookup]
    · intro hq
      simp only [Except.ok.injEq] at hq
      subst hq
      simp [mapInsert, ec2Key, ec2Value, List.lookup]
  · intro ms hms
    cases hq : cw (s3ObjectsInput bucket st en) with
    | error e =>
      unfold S3Metrics at hms
      rw [hq] at hms
      simp only [Except.ok.injEq] at hms
      subst hms
      refine ⟨?_, ?_, ?_⟩
      · simp [mapInsert, List.lookup]
      · simp [mapInsert, List.lookup]
      · intro hcon
        simp at hcon
    | ok dps =>
      cases dps with
      | nil =>
        unfold S3Metrics at hms
        rw [hq] at hms
        simp only [Except.ok.injEq] at hms
        subst hms
        refine ⟨?_, ?_, ?_⟩
        · simp [mapInsert, List.lookup]
        · simp [mapInsert, List.lookup]
        · intro _
          simp [mapInsert, List.lookup]
      | cons d t =>
        unfold S3Metrics at hms
        rw [hq] at hms
        simp only [Except.ok.injEq] at hms
        subst hms
        refine ⟨?_, ?_, ?_⟩
        · simp [mapInsert, List.lookup]
        · simp [mapInsert, List.lookup]
        · intro hcon
          simp at hcon
  · intro dims hq
    cases ha : cw (wafInputFor dims st en (periodFor st en) "AllowedRequests" "Sum") with
    | error e =>
      cases e
      exact absurd ha (hq _)
    | ok dpsA =>
    cases hb : cw (wafInputFor dims st en (periodFor st en) "BlockedRequests" "Sum") with
    | error e =>
      cases e
      exact absurd hb (hq _)
    | ok dpsB =>
    refine ⟨?_, ?_, ?_⟩
    · simp [wafLoop, wafMetricsTable, ha, hb, mapInsert, List.lookup]
    · simp [wafLoop, wafMetricsTable, ha, hb, mapInsert, List.lookup]
    · intro h0
      simp only [Except.ok.injEq] at h0
      subst h0
      simp [wafLoop, wafMetricsTable, ha, hb, mapInsert, wafValue, List.lookup]
  · intro scopeStr ms hms
    by_cases hsc : (scopeStr == "CLOUDFRONT") = true
    · refine ⟨[( "WebACL", webACLName)], ?_⟩
      unfold WAFMetrics at hms
      rw [hsc] at hms
      simp only [eq_self_iff_true, if_true] at hms
      cases hres : getALBARNFromWAF wb webACLName webACLId WafScope.cloudfront with
      | error e =>
        rw [hres] at hms
        simp at hms
        exact hms.symm
      | ok a =>
        rw [hres] at hms
        simp at hms
        exact hms.symm
    · have hsf : (scopeStr == "CLOUDFRONT") = false := by
        cases hz : (scopeStr == "CLOUDFRONT")
        · rfl
        · exact absurd hz hsc
      unfold WAFMetrics at hms
      rw [hsf] at hms
      simp only [Bool.false_eq_true, if_false] at hms
      cases hres : getALBARNFromWAF wb webACLName webACLId WafScope.regional with
      | error e =>
        rw [hres] at hms
        simp at hms
      | ok a =>
        refine ⟨[( "Resource", a), ( "ResourceType", "ALB")], ?_⟩
        rw [hres] at hms
        simp at hms
        exact hms.symm
  · intro albName ms hms
    simp only [ALBMetrics] at hms
    by_cases hp : leadsL "app/".data albName.data = true
    · rw [if_pos hp] at hms
      refine ⟨albName, ?_⟩
      intro spec hspec
      obtain ⟨dps, hq, hlook⟩ := albLoop_lookup_mem cw albName st en
        (periodFor st en) albMetricsTable [] ms spec hms hspec (by decide)
      exact ⟨dps, hq, hlook, fun he => by subst he; exact hlook⟩
    · rw [if_neg hp] at hms
      cases hlm : lm albListInput with
      | error e =>
        rw [hlm] at hms
        cases hms
      | ok series =>
        simp only [hlm] at hms
        by_cases hdim : (albDimFromMetrics albName series "" == "") = true
        · rw [if_pos hdim] at hms
          cases hms
        · rw [if_neg hdim] at hms
          refine ⟨albDimFromMetrics albName series "", ?_⟩
          intro spec hspec
          obtain ⟨dps, hq, hlook⟩ := albLoop_lookup_mem cw
            (albDimFromMetrics albName series "") st en (periodFor st en)
            albMetricsTable [] ms spec hms hspec (by decide)
          exact ⟨dps, hq, hlook, fun he => by subst he; exact hlook⟩
  · intro dist ms hms spec hspec
    obtain ⟨dps, hq, hlook⟩ := cloudFrontLoop_lookup_mem cw dist st en
      (periodFor st en) cloudFrontMetricsTable [] ms spec hms hspec (by decide)
    exact ⟨dps, hq, hlook, fun he => by subst he; exact hlook⟩
  · intro ms hms
    cases h1 : cw (cwaMemInput inst st en (periodFor st en) "Average") with
    | error e => simp [CWAgentMetrics, h1] at hms
    | ok dA =>
    cases h2 : cw (cwaMemInput inst st en (periodFor st en) "Maximum") with
    | error e => simp [CWAgentMetrics, h1, h2] at hms
    | ok dM =>
    cases h3 : lm (cwaDiskListInput inst) with
    | error e => simp [CWAgentMetrics, h1, h2, h3] at hms
    | ok series =>
    cases h4 : cw (cwaDiskInput inst (cwaScanSeries inst series "" "").1
        (cwaScanSeries inst series "" "").2 st en (periodFor st en)) with
    | error e => simp [CWAgentMetrics, h1, h2, h3, h4] at hms
    | ok dD =>
    simp only [CWAgentMetrics, h1, h2, h3, h4, Except.ok.injEq] at hms
    subst hms
    refine ⟨?_, ?_, ?_, ?_, ?_, ?_⟩
    · simp [mapInsert, List.lookup]
    · simp [mapInsert, List.lookup]
    · simp [mapInsert, List.lookup]
    · intro hq
      simp only [Except.ok.injEq] at hq
      subst hq
      simp [mapInsert, cwaMemValue, List.lookup]
    · intro hq
      simp only [Except.ok.injEq] at hq
      subst hq
      simp [mapInsert, cwaMemValue, List.lookup]
    · intro series2 hser hq
      simp only [Except.ok.injEq] at hser
      subst hser
      rw [h4] at hq
      simp only [Except.ok.injEq] at hq
      subst hq
      simp [mapInsert, cwaDiskValue, List.lookup]
  · intro dsc tbl ms hms name stat hmem
    cases dsc with
    | error e => simp [DynamoDBMetrics] at hms
    | ok table =>
      cases table with
      | none =>
        simp only [DynamoDBMetrics, Bool.false_eq_true, if_false] at hms
        obtain ⟨dps, hq, hlook⟩ := dynamoLoop_lookup_mem cw tbl st en
          (periodFor st en) (dynamoBaseTable ++ dynamoProvisionedExtra) _ ms
          name stat hms (List.mem_append_left _ hmem) (by decide)
        exact ⟨dps, hq, hlook, fun he => by subst he; exact hlook⟩
      | some tdesc =>
        by_cases hbm : (tdesc.billingMode == some "PAY_PER_REQUEST") = true
        · simp only [DynamoDBMetrics, hbm, eq_self_iff_true, if_true,
            List.append_nil] at hms
          obtain ⟨dps, hq, hlook⟩ := dynamoLoop_lookup_mem cw tbl st en
            (periodFor st en) dynamoBaseTable _ ms name stat hms hmem (by decide)
          exact ⟨dps, hq, hlook, fun he => by subst he; exact hlook⟩
        · have hbf : (tdesc.billingMode == some "PAY_PER_REQUEST") = false := by
            cases hz : (tdesc.billingMode == some "PAY_PER_REQUEST")
            · rfl
            · exact absurd hz hbm
          simp only [DynamoDBMetrics, hbf, Bool.false_eq_true, if_false] at hms
          obtain ⟨dps, hq, hlook⟩ := dynamoLoop_lookup_mem cw tbl st en
            (periodFor st en) (dynamoBaseTable ++ dynamoProvisionedExtra) _ ms
            name stat hms (List.mem_append_left _ hmem) (by decide)
          exact ⟨dps, hq, hlook, fun he => by subst he; exact hlook⟩
  · intro cid iid hcond
    refine ⟨(if (cid == "") = true then
        (if (iid == "") = true then ([] : MetricSet)
         else rdsInstanceLoop cw iid st en (periodFor st en) rdsInstanceTable [])
      else rdsClusterLoop cw cid st en (periodFor st en) rdsClusterTable
        (if (iid == "") = true then ([] : MetricSet)
         else rdsInstanceLoop cw iid st en (periodFor st en) rdsInstanceTable [])), ?_⟩
    simp only [RDSMetrics, hcond, Bool.false_eq_true, if_false]
  · intro iid ms hms
    by_cases hii : (iid == "") = true
    · simp [RDSMetrics, hii] at hms
    · have hif : (iid == "") = false := by
        cases hz : (iid == "")
        · rfl
        · exact absurd hz hii
      simp [RDSMetrics, hif] at hms
      subst hms
      refine ⟨?_, ?_⟩
      · intro spec hspec dps hq
        constructor
        · exact rdsInstanceLoop_lookup_mem cw iid st en (periodFor st en)
            rdsInstanceTable [] spec dps hspec (by decide) hq
        · intro he
          subst he
          exact rdsInstanceLoop_lookup_mem cw iid st en (periodFor st en)
            rdsInstanceTable [] spec [] hspec (by decide) hq
      · intro herr
        have hstep : rdsInstanceLoop cw iid st en (periodFor st en)
            rdsInstanceTable [] =
            rdsInstanceLoop cw iid st en (periodFor st en)
              [(⟨ "CPUUtilization", "Maximum", "%"⟩ : MetricSpec),
               ⟨ "FreeableMemory", "Average", "bytes"⟩,
               ⟨ "DatabaseConnections", "Maximum", "count"⟩,
               ⟨ "ReadLatency", "Average", "seconds"⟩,
               ⟨ "WriteLatency", "Average", "seconds"⟩] [] := by
          rw [show rdsInstanceTable = (⟨ "CPUUtilization", "Average", "%"⟩ : MetricSpec) ::
              [(⟨ "CPUUtilization", "Maximum", "%"⟩ : MetricSpec),
               ⟨ "FreeableMemory", "Average", "bytes"⟩,
               ⟨ "DatabaseConnections", "Maximum", "count"⟩,
               ⟨ "ReadLatency", "Average", "seconds"⟩,
               ⟨ "WriteLatency", "Average", "seconds"⟩] from rfl]
          rw [rdsInstanceLoop, herr]
        rw [hstep]
        rw [rdsInstanceLoop_lookup_preserved cw iid st en (periodFor st en)
          [(⟨ "CPUUtilization", "Maximum", "%"⟩ : MetricSpec),
           ⟨ "FreeableMemory", "Average", "bytes"⟩,
           ⟨ "DatabaseConnections", "Maximum", "count"⟩,
           ⟨ "ReadLatency", "Average", "seconds"⟩,
           ⟨ "WriteLatency", "Average", "seconds"⟩] []
          "Instance_CPUUtilization_Average" (by decide)]
        rfl

/-- Witness for collectors_zero_default_policy: all-empty responses yield the
all-zero EC2 map with every key present. -/
theorem collectors_zero_default_policy_witness :
    ([( "CPUUtilization_Average", (0 : Rat)), ( "CPUUtilization_Maximum", 0),
      ( "StatusCheckFailed", 0), ( "NetworkIn", 0), ( "NetworkOut", 0)] :
        MetricSet).lookup "NetworkIn" = some 0 := by
  have h := (collectors_zero_default_policy cwAllEmpty
    (⟨Except.ok "web-arn", fun _ => Except.ok [ "alb-arn"]⟩ : WafBackend)
    (fun _ => Except.ok []) "i-1" "b" "acl-id" "acl-name" 0 3600).1
    [( "CPUUtilization_Average", 0), ( "CPUUtilization_Maximum", 0),
      ( "StatusCheckFailed", 0), ( "NetworkIn", 0), ( "NetworkOut", 0)]
    (by with_unfolding_all rfl)
  exact h.2.2.2.2.2.1 rfl

/-- C7 counterexample: the EC2 instance id is interpolated without escaping,
so the raw id with its underscore reaches the output and the escaped form
does not appear. -/
theorem escaping_counterexample :
    containsSub (BuildMessage cfgC7 (⟨ 0, 3600, false⟩ : TimeParams) "t"
      [( "ec2", ReportValue.metrics [])] [] []) "*EC2*: i_1\n" = true ∧
    containsSub (BuildMessage cfgC7 (⟨ 0, 3600, false⟩ : TimeParams) "t"
      [( "ec2", ReportValue.metrics [])] [] []) "i\\_1" = false := by
  constructor
  · with_unfolding_all rfl
  · with_unfolding_all rfl

/-- C7 (amended): escapeMarkdown never leaves an unescaped underscore or
asterisk, and the assembler escapes the S3 bucket name, ALB name, DynamoDB
table names, WAF web ACL name, RDS identifiers and log-group names before
interpolation; the EC2 instance id and the CloudFront distribution id are
interpolated verbatim, without escaping. -/
theorem markdown_escaping_policy :
    (∀ s : String, unescapedMark (escapeMarkdown s).data = false) ∧
    (∀ cfg tp endText am m appIter lamIter,
      cfg.s3Enabled = true → tp.isDailyReport = true →
      am.lookup "s3" = some (ReportValue.metrics m) →
      containsSub (BuildMessage cfg tp endText am appIter lamIter)
        ( "*S3* " ++ escapeMarkdown cfg.s3BucketName ++ "\n") = true) ∧
    (∀ cfg tp endText am m appIter lamIter,
      cfg.albEnabled = true →
      am.lookup "alb" = some (ReportValue.metrics m) →
      containsSub (BuildMessage cfg tp endText am appIter lamIter)
        ( "*ALB* " ++ escapeMarkdown cfg.albName ++ "\n") = true) ∧
    (∀ cfg tp endText am m appIter lamIter,
      cfg.wafEnabled = true →
      am.lookup "waf" = some (ReportValue.metrics m) →
      containsSub (BuildMessage cfg tp endText am appIter lamIter)
        ( "*WAF* " ++ escapeMarkdown cfg.wafWebACLName ++ "\n") = true) ∧
    (∀ cfg tp endText am dm tm tbl appIter lamIter,
      cfg.dynamoEnabled = true →
      am.lookup "dynamodb" = some (ReportValue.tables dm) →
      tbl ∈ cfg.dynamoTableNames → dm.lookup tbl = some tm →
      containsSub (BuildMessage cfg tp endText am appIter lamIter)
        ( "*DynamoDB* " ++ escapeMarkdown tbl ++ "\n") = true) ∧
    (∀ cfg tp endText am m appIter lamIter,
      cfg.rdsEnabled = true → cfg.rdsClusterID ≠ "" → cfg.rdsInstanceID ≠ "" →
      am.lookup "rds" = some (ReportValue.metrics m) →
      containsSub (BuildMessage cfg tp endText am appIter lamIter)
        ( "*RDS* " ++ escapeMarkdown cfg.rdsClusterID ++ " / " ++
          escapeMarkdown cfg.rdsInstanceID ++ "\n") = true) ∧
    (∀ cfg tp endText am lm g appIter lamIter,
      cfg.logsEnabled = true →
      am.lookup "cloudwatchLogs" = some (ReportValue.logGroups lm) →
      (logsAppKeys cfg.logGroupNames lm).isEmpty = false →
      g ∈ appIter →
      containsSub (BuildMessage cfg tp endText am appIter lamIter)
        (escapeMarkdown g ++ ":\n") = true) ∧
    (∀ cfg tp endText am m appIter lamIter,
      cfg.ec2Enabled = true →
      am.lookup "ec2" = some (ReportValue.metrics m) →
      containsSub (BuildMessage cfg tp endText am appIter lamIter)
        ( "*EC2*: " ++ cfg.ec2InstanceID ++ "\n") = true) ∧
    (∀ cfg tp endText am m appIter lamIter,
      cfg.cfEnabled = true →
      am.lookup "cloudfront" = some (ReportValue.metrics m) →
      containsSub (BuildMessage cfg tp endText am appIter lamIter)
        ( "*CloudFront* " ++ cfg.cfDistributionID ++ "\n") = true) := by
  refine ⟨?_, ?_, ?_, ?_, ?_, ?_, ?_, ?_, ?_⟩
  · intro s
    exact unescapedMark_escapeChars s.data
  · intro cfg tp endText am m appIter lamIter hs3 hd ham
    apply buildMessage_contains_s3
    unfold s3Section
    simp only [hs3, hd, Bool.and_self, eq_self_iff_true, if_true, ham]
    iterate 7 apply containsSub_append_left
    exact containsSub_refl _
  · intro cfg tp endText am m appIter lamIter halb ham
    apply buildMessage_contains_alb
    unfold albSection
    simp only [halb, eq_self_iff_true, if_true, ham]
    iterate 22 apply containsSub_append_left
    exact containsSub_refl _
  · intro cfg tp endText am m appIter lamIter hwaf ham
    apply buildMessage_contains_waf
    unfold wafSection
    simp only [hwaf, eq_self_iff_true, if_true, ham]
    iterate 7 apply containsSub_append_left
    exact containsSub_refl _
  · intro cfg tp endText am dm tm tbl appIter lamIter hdy ham htbl hdm
    apply buildMessage_contains_dynamo
    unfold dynamoSection
    simp only [hdy, eq_self_iff_true, if_true, ham]
    apply containsSub_joinAll_of_mem _ (dynamoTableBlock tbl tm)
    · apply List.mem_map.mpr
      refine ⟨tbl, htbl, ?_⟩
      rw [hdm]
    · unfold dynamoTableBlock
      iterate 20 apply containsSub_append_left
      exact containsSub_refl _
  · intro cfg tp endText am m appIter lamIter hrds hc hi ham
    apply buildMessage_contains_rds
    unfold rdsSection
    simp only [hrds, eq_self_iff_true, if_true, ham]
    rw [if_pos (And.intro hc hi)]
    iterate 3 apply containsSub_append_left
    exact containsSub_refl _
  · intro cfg tp endText am lm g appIter lamIter hlg ham happ hg
    apply buildMessage_contains_logs
    unfold logsSection
    simp only [hlg, eq_self_iff_true, if_true, ham]
    rw [happ]
    simp only [Bool.false_eq_true, if_false]
    apply containsSub_append_left
    apply containsSub_append_right
    apply containsSub_joinAll_of_mem _
      (logBlock g ((lm.lookup g).getD ⟨ 0, 0, 0⟩))
    · apply List.mem_map.mpr
      exact ⟨g, hg, rfl⟩
    · unfold logBlock
      iterate 10 apply containsSub_append_left
      exact containsSub_refl _
  · intro cfg tp endText am m appIter lamIter hec ham
    apply buildMessage_contains_ec2
    unfold ec2Section
    simp only [hec, eq_self_iff_true, if_true, ham]
    iterate 14 apply containsSub_append_left
    exact containsSub_refl _
  · intro cfg tp endText am m appIter lamIter hcf ham
    apply buildMessage_contains_cf
    unfold cfSection
    simp only [hcf, eq_self_iff_true, if_true, ham]
    iterate 16 apply containsSub_append_left
    exact containsSub_refl _

/-- Witness for markdown_escaping_policy: the escaped single-table DynamoDB
header appears in the concrete on-demand report. -/
theorem markdown_escaping_policy_witness :
    containsSub (BuildMessage cfgD (⟨ 0, 3600, false⟩ : TimeParams) "t" amD [] [])
      ( "*DynamoDB* " ++ escapeMarkdown "users" ++ "\n") = true := by
  exact markdown_escaping_policy.2.2.2.2.1 cfgD (⟨ 0, 3600, false⟩ : TimeParams)
    "t" amD [( "users", msOnDemandW)] msOnDemandW "users" [] []
    rfl rfl (by simp [cfgD]) rfl

/-- C8 counterexample: with two application log groups, two evaluations that
range over the Go map in its two legitimate iteration orders produce different
report strings. -/
theorem buildMessage_log_order_counterexample :
    ([ "alpha", "beta"] : List String).Perm (logsAppKeys cfgC8.logGroupNames lmC8) ∧
    ([ "beta", "alpha"] : List String).Perm (logsAppKeys cfgC8.logGroupNames lmC8) ∧
    BuildMessage cfgC8 (⟨ 0, 3600, false⟩ : TimeParams) "t" amC8
      [ "alpha", "beta"] [] ≠
    BuildMessage cfgC8 (⟨ 0, 3600, false⟩ : TimeParams) "t" amC8
      [ "beta", "alpha"] [] := by
  have hkeys : logsAppKeys cfgC8.logGroupNames lmC8 = [ "alpha", "beta"] := by
    with_unfolding_all rfl
  refine ⟨?_, ?_, ?_⟩
  · rw [hkeys]
  · rw [hkeys]
    exact List.Perm.swap "alpha" "beta" []
  · decide

/-- C8 (amended): the assembler output is a deterministic function of its
inputs together with the iteration orders of the two log sub-maps, which Go
leaves unspecified; two evaluations agree whenever each sub-section holds at
most one log group, and always agree when the logs service is disabled or its
key is absent, the other sections being unaffected by the orders. -/
theorem buildMessage_deterministic_up_to_log_order (cfg : ServicesConfig)
    (tp : TimeParams) (endText : String) (am : AggregatedReport) :
    (∀ lm p1 p2 q1 q2,
      am.lookup "cloudwatchLogs" = some (ReportValue.logGroups lm) →
      p1.Perm (logsAppKeys cfg.logGroupNames lm) →
      p2.Perm (logsAppKeys cfg.logGroupNames lm) →
      q1.Perm (logsLamKeys cfg.logGroupNames lm) →
      q2.Perm (logsLamKeys cfg.logGroupNames lm) →
      (logsAppKeys cfg.logGroupNames lm).length ≤ 1 →
      (logsLamKeys cfg.logGroupNames lm).length ≤ 1 →
      BuildMessage cfg tp endText am p1 q1 = BuildMessage cfg tp endText am p2 q2) ∧
    (∀ r1 r2 s1 s2, cfg.logsEnabled = false →
      BuildMessage cfg tp endText am r1 s1 = BuildMessage cfg tp endText am r2 s2) ∧
    (∀ r1 r2 s1 s2, am.lookup "cloudwatchLogs" = none →
      BuildMessage cfg tp endText am r1 s1 = BuildMessage cfg tp endText am r2 s2) := by
  refine ⟨?_, ?_, ?_⟩
  · intro lm p1 p2 q1 q2 _ hp1 hp2 hq1 hq2 hlen1 hlen2
    rw [perm_eq_of_len_le_one hp1 hlen1, perm_eq_of_len_le_one hp2 hlen1,
      perm_eq_of_len_le_one hq1 hlen2, perm_eq_of_len_le_one hq2 hlen2]
  · intro r1 r2 s1 s2 hlf
    unfold BuildMessage logsSection
    rw [hlf]
    simp only [Bool.false_eq_true, if_false]
  · intro r1 r2 s1 s2 hnone
    unfold BuildMessage logsSection
    rw [hnone]

/-- Witness for buildMessage_deterministic_up_to_log_order: with the logs key
absent, two different iteration orders give the identical report. -/
theorem buildMessage_deterministic_up_to_log_order_witness :
    BuildMessage cfgD (⟨ 0, 3600, false⟩ : TimeParams) "t" amD [ "x"] [] =
    BuildMessage cfgD (⟨ 0, 3600, false⟩ : TimeParams) "t" amD [ "y"] [] :=
  (buildMessage_deterministic_up_to_log_order cfgD
    (⟨ 0, 3600, false⟩ : TimeParams) "t" amD).2.2 [ "x"] [ "y"] [] [] rfl

end Telegraws
